import Mathlib

/-!
Verification development for the mt10x SWIFT-message parser.

The source parses an MT10x message with four Python regular expressions
(`MT10x.MESSAGE_REGEX`, `UserHeader.REGEX`, `Text.REGEX`, and fixed-offset
slicing for the two headers).  We embed the relevant fragment of the Python
`re` engine shallowly: a regex syntax tree together with a prioritized
backtracking matcher that returns the list of all ways to match a prefix of
the input, in exactly the order the Python engine explores them, so that the
head of the list is the match `re.match` returns.  Greedy pieces try the
longer alternative first, lazy pieces the shorter; `$` accepts the end of the
string or a lone trailing newline, as in Python.  Named groups capture the
consumed substring, with the most recent occurrence first (Python keeps the
last occurrence of a repeated group).
-/

namespace MT10xModel

/-- ASCII whitespace as recognized by Python (`str.strip`, regex class). -/
def isPySpace (c : Char) : Bool :=
  c = ' ' || c = '\t' || c = '\n' || c = '\r' || c = '\x0b' || c = '\x0c'

/-- Strings are modelled as lists of characters. -/
abbrev Str := List Char

/-- Python `str.strip()`: drop leading and trailing whitespace. -/
def pyStrip (s : Str) : Str :=
  ((s.dropWhile isPySpace).reverse.dropWhile isPySpace).reverse

/-- Python slicing `s[a:b]` with `0 ≤ a ≤ b`: indices are clipped, never fault. -/
def pySlice (s : Str) (a b : Nat) : Str := (s.take b).drop a

/-- Executable check that `v` occurs at the start of `s`. -/
def isPre : Str → Str → Bool
  | [], _ => true
  | _ :: _, [] => false
  | a :: v, b :: s => a = b && isPre v s

/-- Executable check that `v` occurs contiguously somewhere inside `s`. -/
def isSeg (v : Str) : Str → Bool
  | [] => isPre v []
  | c :: t => isPre v (c :: t) || isSeg v t

/-- Named-group captures, most recent first. -/
abbrev Caps := List (String × Str)

/-- Syntax of the regex fragment used by the source patterns. -/
inductive Regex : Type where
  | eps : Regex
  | lit : Char → Regex
  | cls : (Char → Bool) → Regex
  | seq : Regex → Regex → Regex
  | alt : Regex → Regex → Regex
  | opt : Bool → Regex → Regex
  | star : Bool → Regex → Regex
  | grp : String → Regex → Regex
  | look : Regex → Regex
  | dollar : Regex

/-- Iterate a star body.  `g` selects greedy (iterate first) or lazy (skip
first).  An iteration must consume at least one character, which mirrors the
Python engine's refusal to repeat an empty match; `fuel` bounds the number of
iterations and is always instantiated above the input length, so the bound is
never the reason an iteration stops. -/
def starRun (body : Str → List (Str × Caps)) (g : Bool) : Nat → Str → List (Str × Caps)
  | 0, s => [(s, [])]
  | fuel + 1, s =>
    let iter :=
      ((body s).filter (fun p => p.1.length < s.length)).flatMap
        (fun pa => (starRun body g fuel pa.1).map (fun pb => (pb.1, pb.2 ++ pa.2)))
    cond g (iter ++ [(s, [])]) ((s, []) :: iter)

/-- All ways for `r` to match a prefix of `s`, as pairs of (rest of the
input, captures produced), in the priority order of the Python backtracking
engine: the head of the list is the match Python commits to. -/
def results (fuel : Nat) : Regex → Str → List (Str × Caps)
  | .eps, s => [(s, [])]
  | .lit c, s =>
    match s with
    | [] => []
    | x :: xs => if x = c then [(xs, [])] else []
  | .cls p, s =>
    match s with
    | [] => []
    | x :: xs => if p x then [(xs, [])] else []
  | .seq a b, s =>
    (results fuel a s).flatMap
      (fun pa => (results fuel b pa.1).map (fun pb => (pb.1, pb.2 ++ pa.2)))
  | .alt a b, s => results fuel a s ++ results fuel b s
  | .opt g a, s => cond g (results fuel a s ++ [(s, [])]) ((s, []) :: results fuel a s)
  | .star g a, s => starRun (results fuel a) g fuel s
  | .grp n a, s =>
    (results fuel a s).map (fun pa => (pa.1, (n, s.take (s.length - pa.1.length)) :: pa.2))
  | .look a, s => if results fuel a s = [] then [] else [(s, [])]
  | .dollar, s => if s = [] ∨ s = ['\n'] then [(s, [])] else []

/-- Python `re.match` over the anchored patterns of the source: the first match in
backtracking priority order, if any, giving its captures. -/
def pyMatch (r : Regex) (s : Str) : Option Caps :=
  ((results (s.length + 1) r s).head?).map (fun p => p.2)

/-- Literal string regex. -/
def strR (cs : Str) : Regex := cs.foldr (fun c r => .seq (.lit c) r) .eps

/-- Literal string regex from a string literal. -/
def litS (s : String) : Regex := strR s.data

/-- Exactly `n` copies, as in `X{n}`. -/
def repN (a : Regex) : Nat → Regex
  | 0 => .eps
  | n + 1 => .seq a (repN a n)

/-- At most `n` copies, greedy, as in `X{0,n}`. -/
def repUpTo (a : Regex) : Nat → Regex
  | 0 => .eps
  | n + 1 => .opt true (.seq a (repUpTo a n))

/-- Greedy plus, `X+`. -/
def plusG (a : Regex) : Regex := .seq a (.star true a)

/-- Lazy plus, `X+?`. -/
def plusL (a : Regex) : Regex := .seq a (.star false a)

/-- Greedy option, `X?`. -/
def optG (a : Regex) : Regex := .opt true a

/-- Greedy whitespace run, `\s*`. -/
def wsStar : Regex := .star true (.cls isPySpace)

/-- The dot under `re.DOTALL`: any character. -/
def anyC : Regex := .cls (fun _ => true)

def isUpperB (c : Char) : Bool := 'A' ≤ c && c ≤ 'Z'

def isLowerB (c : Char) : Bool := 'a' ≤ c && c ≤ 'z'

def isDigitB (c : Char) : Bool := '0' ≤ c && c ≤ '9'

/-- The class `[a-zA-Z0-9]` used by the `{121:}` pattern. -/
def isAlnumB (c : Char) : Bool := isUpperB c || isLowerB c || isDigitB c

/-- The class `[89ab]` for the variant position of the `{121:}` pattern. -/
def isVariantB (c : Char) : Bool := c = '8' || c = '9' || c = 'a' || c = 'b'

/-- The pattern
`[a-zA-Z0-9]{8}-[a-zA-Z0-9]{4}-4[a-zA-Z0-9]{3}-[89ab][a-zA-Z0-9]{3}-[a-zA-Z0-9]{12}`,
identical in `MESSAGE_REGEX` and `UserHeader.REGEX`. -/
def uuidR : Regex :=
  .seq (repN (.cls isAlnumB) 8) (.seq (.lit '-')
  (.seq (repN (.cls isAlnumB) 4) (.seq (.lit '-')
  (.seq (.lit '4') (.seq (repN (.cls isAlnumB) 3) (.seq (.lit '-')
  (.seq (.cls isVariantB)
  (.seq (repN (.cls isAlnumB) 3) (.seq (.lit '-') (repN (.cls isAlnumB) 12))))))))))

/-- One optional braced sub-tag of `UserHeader.REGEX`, e.g. `({113:(?P<bpc>[A-Z]{4})})?`. -/
def uhGroup (pre : String) (name : String) (body : Regex) : Regex :=
  optG (.seq (litS pre) (.seq (.grp name body) (.lit '\x7d')))

/-- The class `[A-Z0-9]` of the `108` sub-tag in `UserHeader.REGEX`. -/
def isMurB (c : Char) : Bool := isUpperB c || isDigitB c

/-- The source pattern `UserHeader.REGEX`, transcribed. -/
def userHeaderRegex : Regex :=
  .seq (uhGroup ("\x7b113:") ("bpc") (repN (.cls isUpperB) 4))
  (.seq (uhGroup ("\x7b108:") ("mur") (repUpTo (.cls isMurB) 16))
  (.seq (uhGroup ("\x7b111:") ("sti") (repN (.cls isDigitB) 3))
  (.seq (uhGroup ("\x7b121:") ("uetr") uuidR)
  .dollar)))

/-- The class `[A-Z 0-9]` (space included) of the `108` sub-tag inside
`MESSAGE_REGEX`. -/
def isMurSpaceB (c : Char) : Bool := isUpperB c || c = ' ' || isDigitB c

/-- The body of the `user_header` named group inside `MESSAGE_REGEX`: like
`UserHeader.REGEX` without anchors, with `[A-Z 0-9]` for the `108` sub-tag
and no named captures. -/
def uhInline : Regex :=
  .seq (optG (.seq (litS ("\x7b113:")) (.seq (repN (.cls isUpperB) 4) (.lit '\x7d'))))
  (.seq (optG (.seq (litS ("\x7b108:")) (.seq (repUpTo (.cls isMurSpaceB) 16) (.lit '\x7d'))))
  (.seq (optG (.seq (litS ("\x7b111:")) (.seq (repN (.cls isDigitB) 3) (.lit '\x7d'))))
  (optG (.seq (litS ("\x7b121:")) (.seq uuidR (.lit '\x7d'))))))

/-- The class `[^}]`. -/
def notBrace (c : Char) : Bool := c ≠ '\x7d'

/-- The source pattern `MT10x.MESSAGE_REGEX`, transcribed (flags: `re.DOTALL`). -/
def messageRegex : Regex :=
  .seq (optG (.seq (litS ("\x7b1:"))
    (.seq (.grp ("basic_header") (plusG (.cls notBrace))) (.lit '\x7d'))))
  (.seq (optG (.seq (litS ("\x7b2:"))
    (.seq (.grp ("application_header")
      (.seq (.alt (.lit 'I') (.lit 'O')) (plusG (.cls notBrace)))) (.lit '\x7d'))))
  (.seq (optG (.seq (litS ("\x7b3:")) (.seq (.grp ("user_header") uhInline) (.lit '\x7d'))))
  (.seq (optG (.seq (litS ("\x7b4:"))
    (.seq wsStar (.seq (.grp ("text") (plusL anyC)) (.seq wsStar (litS ("-\x7d")))))))
  (.seq (optG (.seq (litS ("\x7b5:")) (.seq (.grp ("trailer") (plusG anyC)) (.lit '\x7d'))))
  .dollar))))

/-- The class `[^\s:]`. -/
def notSpaceColon (c : Char) : Bool := !(isPySpace c) && c ≠ ':'

/-- The class `[^:]`. -/
def notColon (c : Char) : Bool := c ≠ ':'

/-- The class `[\d,]`. -/
def digitComma (c : Char) : Bool := isDigitB c || c = ','

/-- The trailing lookahead `(?=(:\d\d)?)` of the free-text tags. -/
def lookNext : Regex :=
  .look (optG (.seq (.lit ':') (.seq (.cls isDigitB) (.cls isDigitB))))

/-- A free-text tag `(PRE(?P<name>.*?)\s*(?=(:\d\d)?))?` where `preR` is the
regex for the literal/tag part before the value; the value itself is the lazy
`.*?`, which may be empty. -/
def freeTag (preR : Regex) (name : String) : Regex :=
  optG (.seq preR (.seq (.grp name (.star false anyC)) (.seq wsStar lookNext)))

/-- A colon-delimited tag `(PRE(?P<name>[^:]*))?`. -/
def colonTag (pre : String) (name : String) : Regex :=
  optG (.seq (litS pre) (.grp name (.star true (.cls notColon))))

/-- A tag with a one-character letter-option, e.g. `:50[AFK]:` or `:59A?:`,
followed by a free-text value with the usual `\s*(?=(:\d\d)?)` ending. -/
def variantTag (pre : String) (vars : List Char) (name : String) : Regex :=
  freeTag (.seq (litS pre) (.seq (.cls (fun c => vars.contains c)) (.lit ':'))) name

/-- The alternation `(CLSTIME|RNCTIME|SNDTIME)`. -/
def ticAlt : Regex := .alt (litS ("CLSTIME")) (.alt (litS ("RNCTIME")) (litS ("SNDTIME")))

/-- The lazily repeated `:13C:` tag of `Text.REGEX`. -/
def tag13C : Regex :=
  .star false (.seq (litS (":13C:/"))
    (.seq (.grp ("time_indication_class") ticAlt)
    (.seq (.lit '/')
    (.seq (.grp ("time_indication_time") (repN (.cls isDigitB) 4))
    (.seq (.grp ("time_indication_sign") (.cls (fun c => c = '+' || c = '-')))
    (.seq (.grp ("time_indication_offset") (repN (.cls isDigitB) 4))
    (.star true (.cls notColon))))))))

/-- The `:32A:` tag of `Text.REGEX`. -/
def tag32A : Regex :=
  optG (.seq (litS (":32A:"))
    (.seq (.grp ("date_year") (repN (.cls isDigitB) 2))
    (.seq (.grp ("date_month") (repN (.cls isDigitB) 2))
    (.seq (.grp ("date_day") (repN (.cls isDigitB) 2))
    (.seq (.grp ("interbank_settled_currency") (repN (.cls isUpperB) 3))
    (.seq (.grp ("interbank_settled_amount") (plusG (.cls digitComma)))
    wsStar))))))

/-- The `:33B:` tag of `Text.REGEX`. -/
def tag33B : Regex :=
  optG (.seq (litS (":33B:"))
    (.seq (.grp ("original_ordered_currency") (repN (.cls isUpperB) 3))
    (.seq (.grp ("original_ordered_amount") (plusG (.cls digitComma)))
    wsStar)))

/-- The `:53[ABD]:` tag, whose value class is `[^\s:]*` followed by `\s*`. -/
def tag53 : Regex :=
  optG (.seq (litS (":53")) (.seq (.cls (fun c => c = 'A' || c = 'B' || c = 'D')) (.seq (.lit ':')
    (.seq (.grp ("sender_correspondent") (.star true (.cls notSpaceColon))) wsStar))))

/-- The greedily repeated `:71F:` tag. -/
def tag71F : Regex :=
  .star true (.seq (litS (":71F:")) (.grp ("sender_charges") (.star true (.cls notColon))))

/-- The part of `Text.REGEX` that follows the `:32A:` tag. -/
def textAfter32A : Regex :=
  .seq tag33B
  (.seq (colonTag (":36:") ("exchange_rate"))
  (.seq (variantTag (":50") (['A', 'F', 'K']) ("ordering_customer"))
  (.seq (colonTag (":51A:") ("sending_institution"))
  (.seq (variantTag (":52") (['A', 'D']) ("ordering_institution"))
  (.seq tag53
  (.seq (variantTag (":54") (['A', 'B', 'D']) ("receiver_correspondent"))
  (.seq (variantTag (":56") (['A', 'C', 'D']) ("intermediary"))
  (.seq (variantTag (":57") (['A', 'B', 'C', 'D']) ("account_with_institution"))
  (.seq (freeTag (.seq (litS (":59")) (.seq (optG (.lit 'A')) (.lit ':'))) ("beneficiary"))
  (.seq (freeTag (litS (":70:")) ("remittance_information"))
  (.seq (freeTag (litS (":71A:")) ("details_of_charges"))
  (.seq tag71F
  (.seq (colonTag (":71G:") ("receiver_charges"))
  (.seq (freeTag (litS (":72:")) ("sender_to_receiver_information"))
  (.seq (freeTag (litS (":77B:")) ("regulatory_reporting"))
  .dollar)))))))))))))))

/-- The source pattern `Text.REGEX`, transcribed (flags: `re.DOTALL`). -/
def textRegex : Regex :=
  .seq (optG (.seq (litS (":20:"))
    (.seq (.grp ("senders_reference") (plusG (.cls notSpaceColon))) wsStar)))
  (.seq tag13C
  (.seq (optG (.seq (litS (":23B:"))
    (.seq (.grp ("bank_operation_code") (plusG (.cls notSpaceColon))) wsStar)))
  (.seq (colonTag (":23E:") ("instruction_code"))
  (.seq (colonTag (":26T:") ("transaction_type_code"))
  (.seq tag32A textAfter32A)))))

/-- Look a named group up among the captures of a match (`m.group(name)`). -/
def capLookup (n : String) (caps : Caps) : Option Str :=
  (caps.find? (fun p => p.1 = n)).map (fun p => p.2)

/-- All group names occurring in a regex (`look` never emits captures). -/
def grpNames : Regex → List String
  | .grp n a => n :: grpNames a
  | .seq a b => grpNames a ++ grpNames b
  | .alt a b => grpNames a ++ grpNames b
  | .opt _ a => grpNames a
  | .star _ a => grpNames a
  | _ => []

/-- The literal tag text that introduces each named group of `Text.REGEX`. -/
def tagPre (nm : String) : Option Str :=
  if nm = ("senders_reference") then some ((":20:").data)
  else if nm = ("time_indication_class") then some ((":13C:/").data)
  else if nm = ("time_indication_time") then some ((":13C:/").data)
  else if nm = ("time_indication_sign") then some ((":13C:/").data)
  else if nm = ("time_indication_offset") then some ((":13C:/").data)
  else if nm = ("bank_operation_code") then some ((":23B:").data)
  else if nm = ("instruction_code") then some ((":23E:").data)
  else if nm = ("transaction_type_code") then some ((":26T:").data)
  else if nm = ("date_year") then some ((":32A:").data)
  else if nm = ("date_month") then some ((":32A:").data)
  else if nm = ("date_day") then some ((":32A:").data)
  else if nm = ("interbank_settled_currency") then some ((":32A:").data)
  else if nm = ("interbank_settled_amount") then some ((":32A:").data)
  else if nm = ("original_ordered_currency") then some ((":33B:").data)
  else if nm = ("original_ordered_amount") then some ((":33B:").data)
  else if nm = ("exchange_rate") then some ((":36:").data)
  else if nm = ("ordering_customer") then some ((":50").data)
  else if nm = ("sending_institution") then some ((":51A:").data)
  else if nm = ("ordering_institution") then some ((":52").data)
  else if nm = ("sender_correspondent") then some ((":53").data)
  else if nm = ("receiver_correspondent") then some ((":54").data)
  else if nm = ("intermediary") then some ((":56").data)
  else if nm = ("account_with_institution") then some ((":57").data)
  else if nm = ("beneficiary") then some ((":59").data)
  else if nm = ("remittance_information") then some ((":70:").data)
  else if nm = ("details_of_charges") then some ((":71A:").data)
  else if nm = ("sender_charges") then some ((":71F:").data)
  else if nm = ("receiver_charges") then some ((":71G:").data)
  else if nm = ("sender_to_receiver_information") then some ((":72:").data)
  else if nm = ("regulatory_reporting") then some ((":77B:").data)
  else none

/-- A name's introducing tag text occurs contiguously in `s`. -/
def TagOrigin (nm : String) (s : Str) : Prop :=
  ∀ pre, tagPre nm = some pre → isSeg pre s = true

/-- Numeric value of a decimal digit character. -/
def digitVal (c : Char) : Nat := c.toNat - 48

/-- Python `int` on a string of decimal digits. -/
def decVal (s : Str) : Nat := s.foldl (fun a c => a * 10 + digitVal c) 0

def isLeap (y : Nat) : Bool := y % 4 = 0 && (y % 100 ≠ 0 || y % 400 = 0)

def daysInMonth (y m : Nat) : Nat :=
  if m = 2 then (if isLeap y then 29 else 28)
  else if m = 4 || m = 6 || m = 9 || m = 11 then 30 else 31

/-- A calendar date as validated by `datetime.date`. -/
structure PyDate where
  year : Nat
  month : Nat
  day : Nat
  deriving DecidableEq

/-- Python `datetime.date(y, m, d)`: `some` on a real calendar date, `none` when the
constructor would raise `ValueError`. -/
def mkDate (y m d : Nat) : Option PyDate :=
  if 1 ≤ y ∧ y ≤ 9999 ∧ 1 ≤ m ∧ m ≤ 12 ∧ 1 ≤ d ∧ d ≤ daysInMonth y m then
    some ⟨y, m, d⟩
  else none

/-- The `date` derivation at the end of `Text._populate_by_parsing`:
`date(2000 + int(yy), int(mm), int(dd))` with `ValueError`/`TypeError`
swallowed into `none`. -/
def deriveDate (caps : Caps) : Option PyDate :=
  match capLookup ("date_year") caps, capLookup ("date_month") caps,
      capLookup ("date_day") caps with
  | some y, some m, some d => mkDate (2000 + decVal y) (decVal m) (decVal d)
  | _, _, _ => none

/-- The `BasicHeader` object: `raw`, the five sliced fields, `_boolean`. -/
structure BasicHeader where
  raw : Str
  application_id : Option Str
  service_id : Option Str
  logical_terminal_address : Option Str
  session_number : Option Str
  sequence_number : Option Str
  boolean : Bool
  deriving DecidableEq

/-- The source `BasicHeader.__init__` plus `_populate_by_parsing`: fixed-offset slicing. -/
def BasicHeader.parse (raw : Str) : BasicHeader :=
  if raw = [] then ⟨raw, none, none, none, none, none, false⟩
  else
    ⟨raw, some (pySlice raw 0 1), some (pySlice raw 1 3), some (pySlice raw 3 15),
      some (pySlice raw 15 19), some (pySlice raw 19 25), true⟩

/-- The `ApplicationHeader` object; its `raw` may be Python `None`. -/
structure ApplicationHeader where
  raw : Option Str
  input_output : Option Str
  swift_message_type : Option Str
  destination_address : Option Str
  priority : Option Str
  delivery_monitoring : Option Str
  obsolescence_period : Option Str
  boolean : Bool
  deriving DecidableEq

/-- The source `ApplicationHeader.__init__` plus `_populate_by_parsing`. -/
def ApplicationHeader.parse (raw : Option Str) : ApplicationHeader :=
  match raw with
  | none => ⟨raw, none, none, none, none, none, none, false⟩
  | some r =>
    if r = [] then ⟨raw, none, none, none, none, none, none, false⟩
    else
      ⟨raw, some (pySlice r 0 1), some (pySlice r 1 4), some (pySlice r 4 16),
        some (pySlice r 16 17), some (pySlice r 17 18), some (pySlice r 18 21), true⟩

/-- The `UserHeader` object. -/
structure UserHeader where
  raw : Str
  bank_priority_code : Option Str
  message_user_reference : Option Str
  service_type_identifier : Option Str
  unique_end_to_end_transaction_reference : Option Str
  boolean : Bool
  deriving DecidableEq

/-- The source `UserHeader.__init__` plus `_populate_by_parsing`. -/
def UserHeader.parse (raw : Str) : UserHeader :=
  if raw = [] then ⟨raw, none, none, none, none, false⟩
  else
    match pyMatch userHeaderRegex raw with
    | none => ⟨raw, none, none, none, none, false⟩
    | some caps =>
      ⟨raw, capLookup ("bpc") caps, capLookup ("mur") caps, capLookup ("sti") caps,
        capLookup ("uetr") caps, true⟩

/-- The `Text` (body) object.  The `time_indication_*` groups of the regex
have no matching attribute on the class, so `_populate_by_parsing` discards
them via its `hasattr` guard; they are therefore not fields here. -/
structure Text where
  raw : Str
  senders_reference : Option Str
  bank_operation_code : Option Str
  instruction_code : Option Str
  transaction_type_code : Option Str
  interbank_settled_currency : Option Str
  interbank_settled_amount : Option Str
  original_ordered_currency : Option Str
  original_ordered_amount : Option Str
  exchange_rate : Option Str
  ordering_customer : Option Str
  sending_institution : Option Str
  ordering_institution : Option Str
  sender_correspondent : Option Str
  receiver_correspondent : Option Str
  intermediary : Option Str
  account_with_institution : Option Str
  beneficiary : Option Str
  remittance_information : Option Str
  details_of_charges : Option Str
  sender_charges : Option Str
  receiver_charges : Option Str
  sender_to_receiver_information : Option Str
  regulatory_reporting : Option Str
  date : Option PyDate
  boolean : Bool
  deriving DecidableEq

/-- The source `Text.__init__` plus `_populate_by_parsing`. -/
def Text.parse (raw : Str) : Text :=
  if raw = [] then
    { raw := raw, senders_reference := none, bank_operation_code := none,
      instruction_code := none, transaction_type_code := none,
      interbank_settled_currency := none, interbank_settled_amount := none,
      original_ordered_currency := none, original_ordered_amount := none,
      exchange_rate := none, ordering_customer := none, sending_institution := none,
      ordering_institution := none, sender_correspondent := none,
      receiver_correspondent := none, intermediary := none,
      account_with_institution := none, beneficiary := none,
      remittance_information := none, details_of_charges := none,
      sender_charges := none, receiver_charges := none,
      sender_to_receiver_information := none, regulatory_reporting := none,
      date := none, boolean := false }
  else
    match pyMatch textRegex raw with
    | none =>
      { raw := raw, senders_reference := none, bank_operation_code := none,
        instruction_code := none, transaction_type_code := none,
        interbank_settled_currency := none, interbank_settled_amount := none,
        original_ordered_currency := none, original_ordered_amount := none,
        exchange_rate := none, ordering_customer := none, sending_institution := none,
        ordering_institution := none, sender_correspondent := none,
        receiver_correspondent := none, intermediary := none,
        account_with_institution := none, beneficiary := none,
        remittance_information := none, details_of_charges := none,
        sender_charges := none, receiver_charges := none,
        sender_to_receiver_information := none, regulatory_reporting := none,
        date := none, boolean := false }
    | some caps =>
      { raw := raw,
        senders_reference := capLookup ("senders_reference") caps,
        bank_operation_code := capLookup ("bank_operation_code") caps,
        instruction_code := capLookup ("instruction_code") caps,
        transaction_type_code := capLookup ("transaction_type_code") caps,
        interbank_settled_currency := capLookup ("interbank_settled_currency") caps,
        interbank_settled_amount := capLookup ("interbank_settled_amount") caps,
        original_ordered_currency := capLookup ("original_ordered_currency") caps,
        original_ordered_amount := capLookup ("original_ordered_amount") caps,
        exchange_rate := capLookup ("exchange_rate") caps,
        ordering_customer := capLookup ("ordering_customer") caps,
        sending_institution := capLookup ("sending_institution") caps,
        ordering_institution := capLookup ("ordering_institution") caps,
        sender_correspondent := capLookup ("sender_correspondent") caps,
        receiver_correspondent := capLookup ("receiver_correspondent") caps,
        intermediary := capLookup ("intermediary") caps,
        account_with_institution := capLookup ("account_with_institution") caps,
        beneficiary := capLookup ("beneficiary") caps,
        remittance_information := capLookup ("remittance_information") caps,
        details_of_charges := capLookup ("details_of_charges") caps,
        sender_charges := capLookup ("sender_charges") caps,
        receiver_charges := capLookup ("receiver_charges") caps,
        sender_to_receiver_information := capLookup ("sender_to_receiver_information") caps,
        regulatory_reporting := capLookup ("regulatory_reporting") caps,
        date := deriveDate caps,
        boolean := true }

/-- The top-level `MT10x` object. -/
structure MT10x where
  raw : Str
  basic_header : Option BasicHeader
  application_header : Option ApplicationHeader
  user_header : Option UserHeader
  text : Option Text
  trailer : Option Str
  boolean : Bool
  deriving DecidableEq

/-- The source `MT10x.__init__` plus `_populate_by_parsing`: strip the input, match the
message regex, hand the named blocks to the sub-parsers. -/
def MT10x.parse (message : Str) : MT10x :=
  let raw := pyStrip message
  if raw = [] then ⟨raw, none, none, none, none, none, false⟩
  else
    match pyMatch messageRegex raw with
    | none => ⟨raw, none, none, none, none, none, false⟩
    | some caps =>
      ⟨raw,
        some (BasicHeader.parse ((capLookup ("basic_header") caps).getD [])),
        some (ApplicationHeader.parse (capLookup ("application_header") caps)),
        some (UserHeader.parse ((capLookup ("user_header") caps).getD [])),
        some (Text.parse ((capLookup ("text") caps).getD [])),
        capLookup ("trailer") caps,
        true⟩

/-- The source `MT10x.__str__`: rendering the message back to text returns `raw`. -/
def MT10x.str (m : MT10x) : Str := m.raw

/-- The list of the 23 string-valued body fields, used to state properties of
all of them at once. -/
def Text.strFields (t : Text) : List (Option Str) :=
  [t.senders_reference, t.bank_operation_code, t.instruction_code,
   t.transaction_type_code, t.interbank_settled_currency, t.interbank_settled_amount,
   t.original_ordered_currency, t.original_ordered_amount, t.exchange_rate,
   t.ordering_customer, t.sending_institution, t.ordering_institution,
   t.sender_correspondent, t.receiver_correspondent, t.intermediary,
   t.account_with_institution, t.beneficiary, t.remittance_information,
   t.details_of_charges, t.sender_charges, t.receiver_charges,
   t.sender_to_receiver_information, t.regulatory_reporting]

/-- Membership in a character run predicate: the first `n` characters exist
and satisfy `p`. -/
def takesCls (p : Char → Bool) : Nat → Str → Bool
  | 0, _ => true
  | _ + 1, [] => false
  | n + 1, c :: s => p c && takesCls p n s

/-- The first character exists and equals `c`. -/
def headIs (c : Char) (s : Str) : Bool :=
  match s with
  | [] => false
  | x :: _ => x = c

/-- The first character exists and satisfies `p`. -/
def headCl (p : Char → Bool) (s : Str) : Bool :=
  match s with
  | [] => false
  | x :: _ => p x

/-- Invariant of one match outcome. -/
def SegInv (s : Str) (p : Str × Caps) : Prop :=
  (∃ k, p.1 = s.drop k) ∧ ∀ q ∈ p.2, isSeg q.2 s = true

/-- The step-by-step acceptance condition of the `{121:}` value pattern, as
read off the deterministic character-class chain of `uuidR`. -/
def uuidCheck (t : Str) : Bool :=
  takesCls isAlnumB 8 t &&
  (headIs '-' (t.drop 8) &&
  (takesCls isAlnumB 4 (t.drop 9) &&
  (headIs '-' (t.drop 13) &&
  (headIs '4' (t.drop 14) &&
  (takesCls isAlnumB 3 (t.drop 15) &&
  (headIs '-' (t.drop 18) &&
  (headCl isVariantB (t.drop 19) &&
  (takesCls isAlnumB 3 (t.drop 20) &&
  (headIs '-' (t.drop 23) &&
  takesCls isAlnumB 12 (t.drop 24))))))))))

/-- The amended shape of an accepted transaction reference: five dash-separated
groups of `[a-zA-Z0-9]` characters with lengths 8-4-4-4-12, the third group
starting with `4` and the fourth with a character from `[89ab]`. -/
def uetrShapeP (s : Str) : Prop :=
  ∃ g1 g2 g3 g4 g5 : Str,
    s = g1 ++ '-' :: (g2 ++ '-' :: (g3 ++ '-' :: (g4 ++ '-' :: g5))) ∧
    g1.length = 8 ∧ g2.length = 4 ∧ g3.length = 4 ∧ g4.length = 4 ∧ g5.length = 12 ∧
    (∀ c ∈ g1, isAlnumB c = true) ∧ (∀ c ∈ g2, isAlnumB c = true) ∧
    (∀ c ∈ g3, isAlnumB c = true) ∧ (∀ c ∈ g4, isAlnumB c = true) ∧
    (∀ c ∈ g5, isAlnumB c = true) ∧
    g3.head? = some '4' ∧ (∃ v, g4.head? = some v ∧ isVariantB v = true)

/-! ## List utilities -/

theorem isPre_take : ∀ (k : Nat) (s : Str), isPre (s.take k) s = true
  | 0, s => by cases s <;> rfl
  | _ + 1, [] => rfl
  | k + 1, c :: s => by simp [List.take, isPre, isPre_take k s]

theorem isSeg_of_isPre {v s : Str} (h : isPre v s = true) : isSeg v s = true := by
  cases s with
  | nil => simpa [isSeg] using h
  | cons c t => simp [isSeg, h]

theorem isSeg_take (k : Nat) (s : Str) : isSeg (s.take k) s = true :=
  isSeg_of_isPre (isPre_take k s)

theorem isSeg_drop : ∀ (k : Nat) (s : Str) (v : Str),
    isSeg v (s.drop k) = true → isSeg v s = true
  | 0, s, v => by simp
  | _ + 1, [], v => by simp
  | k + 1, c :: s, v => fun h => by
    simp only [List.drop] at h
    simp [isSeg, isSeg_drop k s v h]

theorem takesCls_split {p : Char → Bool} :
    ∀ {n : Nat} {s : Str}, takesCls p n s = true →
      ∃ a : Str, s = a ++ s.drop n ∧ a.length = n ∧ ∀ c ∈ a, p c = true := by
  intro n
  induction n with
  | zero => exact fun _ => ⟨[], by simp⟩
  | succ m ih =>
    intro s h
    cases s with
    | nil => simp [takesCls] at h
    | cons c t =>
      simp only [takesCls, Bool.and_eq_true] at h
      obtain ⟨a, ha, hl, hp⟩ := ih h.2
      exact ⟨c :: a, by simpa [List.drop] using ha, by simp [hl], by
        intro x hx
        rcases List.mem_cons.mp hx with rfl | hx
        · exact h.1
        · exact hp x hx⟩

theorem takesCls_of_append {p : Char → Bool} :
    ∀ {a : Str} (r : Str), (∀ c ∈ a, p c = true) → takesCls p a.length (a ++ r) = true := by
  intro a
  induction a with
  | nil => intro r _; rfl
  | cons c t ih =>
    intro r h
    simp only [List.length_cons, List.cons_append, takesCls, Bool.and_eq_true]
    exact ⟨h c (by simp), ih r (fun x hx => h x (by simp [hx]))⟩

theorem headIs_split {c : Char} {s : Str} (h : headIs c s = true) :
    s = c :: s.drop 1 := by
  cases s with
  | nil => simp [headIs] at h
  | cons x t =>
    simp only [headIs, decide_eq_true_eq] at h
    simp [h]

theorem headCl_split {p : Char → Bool} {s : Str} (h : headCl p s = true) :
    ∃ v, s = v :: s.drop 1 ∧ p v = true := by
  cases s with
  | nil => simp [headCl] at h
  | cons x t => exact ⟨x, by simp, h⟩

theorem append_cancel_last {l₁ l₂ : Str} {x : Char} (h : l₁ ++ [x] = l₂ ++ [x]) :
    l₁ = l₂ :=
  List.append_cancel_right h

theorem dropWhile_eq_nil_of_all {s : Str} (h : ∀ c ∈ s, isPySpace c = true) :
    s.dropWhile isPySpace = [] := by
  induction s with
  | nil => rfl
  | cons c t ih =>
    simp only [List.dropWhile, h c (by simp)]
    exact ih (fun x hx => h x (by simp [hx]))

theorem pyStrip_eq_nil_of_all {s : Str} (h : ∀ c ∈ s, isPySpace c = true) :
    pyStrip s = [] := by
  simp [pyStrip, dropWhile_eq_nil_of_all h]

theorem pySlice_eq_nil {s : Str} {a b : Nat} (h : s.length ≤ a) : pySlice s a b = [] := by
  unfold pySlice
  refine List.drop_eq_nil_of_le (le_trans ?_ h)
  rw [List.length_take]
  exact min_le_right _ _

/-! ## Engine equations and composite evaluation lemmas -/

theorem results_optG (fuel : Nat) (a : Regex) (s : Str) :
    results fuel (.opt true a) s = results fuel a s ++ [(s, [])] := rfl

theorem results_seq (fuel : Nat) (a b : Regex) (s : Str) :
    results fuel (.seq a b) s =
      (results fuel a s).flatMap
        (fun pa => (results fuel b pa.1).map (fun pb => (pb.1, pb.2 ++ pa.2))) := rfl

theorem results_seq_nil {fuel : Nat} {a : Regex} {s : Str} (b : Regex)
    (h : results fuel a s = []) : results fuel (.seq a b) s = [] := by
  simp [results_seq, h]

theorem results_seq_optG (fuel : Nat) (a b : Regex) (s : Str) :
    results fuel (.seq (.opt true a) b) s =
      results fuel (.seq a b) s ++ results fuel b s := by
  simp [results_seq, results_optG, List.flatMap_append]

theorem results_seq_assoc (fuel : Nat) (a b c : Regex) (s : Str) :
    results fuel (.seq (.seq a b) c) s = results fuel (.seq a (.seq b c)) s := by
  simp only [results_seq, List.flatMap_map, List.map_map]
  rw [List.flatMap_assoc]
  apply List.flatMap_congr
  intro pa _
  rw [List.map_flatMap, List.flatMap_map]
  apply List.flatMap_congr
  intro pb _
  simp [Function.comp, List.map_map, List.append_assoc]

theorem starRun_body_nil {body : Str → List (Str × Caps)} {s : Str} {g : Bool}
    (h : body s = []) : ∀ fuel, starRun body g fuel s = [(s, [])] := by
  intro fuel
  cases fuel with
  | zero => rfl
  | succ f => cases g <;> simp [starRun, h]

theorem results_seq_star_skip {fuel : Nat} {a : Regex} {g : Bool} {s : Str} (b : Regex)
    (h : results fuel a s = []) :
    results fuel (.seq (.star g a) b) s = results fuel b s := by
  show ((starRun (results fuel a) g fuel s).flatMap _) = _
  rw [starRun_body_nil h]
  simp

theorem results_strR (fuel : Nat) :
    ∀ (cs s : Str), results fuel (strR cs) s =
      if isPre cs s then [(s.drop cs.length, [])] else [] := by
  intro cs
  induction cs with
  | nil => intro s; simp [strR, results, isPre]
  | cons c t ih =>
    intro s
    show results fuel (.seq (.lit c) (strR t)) s = _
    cases s with
    | nil => simp [results_seq, results, isPre]
    | cons x xs =>
      by_cases hx : x = c
      · subst hx
        simp [results_seq, results, ih xs, isPre]
      · have hcx : (c = x) = False := by simp [Ne.symm hx]
        simp [results_seq, results, hx, isPre, hcx]

theorem results_seq_strR (fuel : Nat) (cs s : Str) (b : Regex) :
    results fuel (.seq (strR cs) b) s =
      if isPre cs s then results fuel b (s.drop cs.length) else [] := by
  rw [results_seq, results_strR]
  split <;> simp

/-- Deterministic evaluation through a sequence whose head regex has a
single-result (or empty) outcome. -/
theorem det_seq {fuel : Nat} {a : Regex} {s t : Str} {c : Bool} {cp : Caps} (b : Regex)
    (ha : results fuel a s = if c then [(t, cp)] else []) :
    results fuel (.seq a b) s =
      if c then (results fuel b t).map (fun pb => (pb.1, pb.2 ++ cp)) else [] := by
  rw [results_seq, ha]
  cases c <;> simp

theorem det_lit (fuel : Nat) (c : Char) (s : Str) :
    results fuel (.lit c) s = if headIs c s then [(s.drop 1, [])] else [] := by
  cases s with
  | nil => rfl
  | cons x xs => simp [results, headIs]

theorem det_cls (fuel : Nat) (p : Char → Bool) (s : Str) :
    results fuel (.cls p) s = if headCl p s then [(s.drop 1, [])] else [] := by
  cases s with
  | nil => rfl
  | cons x xs => simp [results, headCl]

theorem det_repN_cls (fuel : Nat) (p : Char → Bool) :
    ∀ (n : Nat) (s : Str), results fuel (repN (.cls p) n) s =
      if takesCls p n s then [(s.drop n, [])] else [] := by
  intro n
  induction n with
  | zero => intro s; simp [repN, results, takesCls]
  | succ m ih =>
    intro s
    show results fuel (.seq (.cls p) (repN (.cls p) m)) s = _
    cases s with
    | nil => simp [results_seq, results, takesCls]
    | cons x xs =>
      by_cases hx : p x
      · simp [results_seq, results, hx, ih xs, takesCls]
      · simp [results_seq, results, hx, takesCls]

theorem det_grp {fuel : Nat} {a : Regex} {s t : Str} {c : Bool} (n : String)
    (ha : results fuel a s = if c then [(t, [])] else []) :
    results fuel (.grp n a) s =
      if c then [(t, [(n, s.take (s.length - t.length))])] else [] := by
  show (results fuel a s).map _ = _
  rw [ha]
  cases c <;> simp

theorem takesCls_length {p : Char → Bool} : ∀ {n : Nat} {s : Str},
    takesCls p n s = true → n ≤ s.length := by
  intro n
  induction n with
  | zero => intro s _; exact Nat.zero_le _
  | succ m ih =>
    intro s h
    cases s with
    | nil => simp [takesCls] at h
    | cons c t =>
      simp only [takesCls, Bool.and_eq_true] at h
      simpa using ih h.2

theorem det_seq_grp_repN {fuel : Nat} {p : Char → Bool} {n : Nat} {s : Str} {nm : String}
    (b : Regex) (hp : takesCls p n s = true) :
    results fuel (.seq (.grp nm (repN (.cls p) n)) b) s =
      (results fuel b (s.drop n)).map
        (fun pb => (pb.1, pb.2 ++ [(nm, s.take n)])) := by
  have htake : s.length - (s.drop n).length = n := by
    rw [List.length_drop]
    have := takesCls_length hp
    omega
  rw [det_seq b (det_grp nm (det_repN_cls fuel p n s)), hp, htake]
  simp

theorem if_if_bool {α : Type} (c d : Bool) (x : List α) :
    (if c then (if d then x else []) else []) = if c && d then x else [] := by
  cases c <;> simp

/-! ## Every engine outcome leaves a suffix of the input and captures
contiguous substrings of it. -/

theorem starRun_mem {body : Str → List (Str × Caps)} {g : Bool}
    (hb : ∀ s p, p ∈ body s → SegInv s p) :
    ∀ (fuel : Nat) (s : Str) (p : Str × Caps), p ∈ starRun body g fuel s → SegInv s p := by
  intro fuel
  induction fuel with
  | zero =>
    intro s p hp
    cases g <;> simp [starRun] at hp <;> exact hp ▸ ⟨⟨0, rfl⟩, by simp⟩
  | succ f ih =>
    intro s p hp
    have hiter : ∀ q ∈ ((body s).filter (fun p => p.1.length < s.length)).flatMap
        (fun pa => (starRun body g f pa.1).map (fun pb => (pb.1, pb.2 ++ pa.2))),
        SegInv s q := by
      intro q hq
      obtain ⟨pa, hpa, hq⟩ := List.mem_flatMap.mp hq
      obtain ⟨pb, hpb, rfl⟩ := List.mem_map.mp hq
      have hpa' := hb s pa (List.mem_filter.mp hpa).1
      obtain ⟨⟨k1, hk1⟩, hcap1⟩ := hpa'
      obtain ⟨⟨k2, hk2⟩, hcap2⟩ := ih pa.1 pb hpb
      refine ⟨⟨k1 + k2, by rw [hk2, hk1, List.drop_drop]⟩, ?_⟩
      intro qq hqq
      rcases List.mem_append.mp hqq with h | h
      · exact isSeg_drop k1 s qq.2 (hk1 ▸ hcap2 qq h)
      · exact hcap1 qq h
    cases g <;> simp only [starRun, cond_false, cond_true] at hp
    · rcases List.mem_cons.mp hp with h | h
      · exact h ▸ ⟨⟨0, rfl⟩, by simp⟩
      · exact hiter p h
    · rcases List.mem_append.mp hp with h | h
      · exact hiter p h
      · simp at h; exact h ▸ ⟨⟨0, rfl⟩, by simp⟩

theorem results_mem (fuel : Nat) :
    ∀ (r : Regex) (s : Str) (p : Str × Caps), p ∈ results fuel r s → SegInv s p := by
  intro r
  induction r with
  | eps =>
    intro s p hp
    simp [results] at hp
    exact hp ▸ ⟨⟨0, rfl⟩, by simp⟩
  | lit c =>
    intro s p hp
    cases s with
    | nil => simp [results] at hp
    | cons x xs =>
      simp only [results] at hp
      split at hp <;> simp at hp
      exact hp ▸ ⟨⟨1, rfl⟩, by simp⟩
  | cls q =>
    intro s p hp
    cases s with
    | nil => simp [results] at hp
    | cons x xs =>
      simp only [results] at hp
      split at hp <;> simp at hp
      exact hp ▸ ⟨⟨1, rfl⟩, by simp⟩
  | seq a b iha ihb =>
    intro s p hp
    rw [results_seq] at hp
    obtain ⟨pa, hpa, hp⟩ := List.mem_flatMap.mp hp
    obtain ⟨pb, hpb, rfl⟩ := List.mem_map.mp hp
    obtain ⟨⟨k1, hk1⟩, hcap1⟩ := iha s pa hpa
    obtain ⟨⟨k2, hk2⟩, hcap2⟩ := ihb pa.1 pb hpb
    refine ⟨⟨k1 + k2, by rw [hk2, hk1, List.drop_drop]⟩, ?_⟩
    intro qq hqq
    rcases List.mem_append.mp hqq with h | h
    · exact isSeg_drop k1 s qq.2 (hk1 ▸ hcap2 qq h)
    · exact hcap1 qq h
  | alt a b iha ihb =>
    intro s p hp
    rcases List.mem_append.mp hp with h | h
    · exact iha s p h
    · exact ihb s p h
  | opt g a iha =>
    intro s p hp
    cases g <;> simp only [results, cond_false, cond_true] at hp
    · rcases List.mem_cons.mp hp with h | h
      · exact h ▸ ⟨⟨0, rfl⟩, by simp⟩
      · exact iha s p h
    · rcases List.mem_append.mp hp with h | h
      · exact iha s p h
      · simp at h; exact h ▸ ⟨⟨0, rfl⟩, by simp⟩
  | star g a iha =>
    intro s p hp
    exact starRun_mem (iha) fuel s p hp
  | grp n a iha =>
    intro s p hp
    obtain ⟨pa, hpa, rfl⟩ := List.mem_map.mp hp
    obtain ⟨⟨k1, hk1⟩, hcap1⟩ := iha s pa hpa
    refine ⟨⟨k1, hk1⟩, ?_⟩
    intro qq hqq
    rcases List.mem_cons.mp hqq with h | h
    · rw [h]
      exact isSeg_take _ s
    · exact hcap1 qq h
  | look a _ =>
    intro s p hp
    simp only [results] at hp
    split at hp <;> simp at hp
    exact hp ▸ ⟨⟨0, rfl⟩, by simp⟩
  | dollar =>
    intro s p hp
    simp only [results] at hp
    split at hp <;> simp at hp
    exact hp ▸ ⟨⟨0, rfl⟩, by simp⟩

/-- A capture returned by a successful `pyMatch` is a contiguous substring of
the input. -/
theorem pyMatch_caps_seg {r : Regex} {s : Str} {caps : Caps}
    (h : pyMatch r s = some caps) : ∀ q ∈ caps, isSeg q.2 s = true := by
  unfold pyMatch at h
  cases hh : (results (s.length + 1) r s).head? with
  | none => rw [hh] at h; simp at h
  | some p =>
    rw [hh] at h
    simp at h
    have hmem : p ∈ results (s.length + 1) r s := by
      cases hr : results (s.length + 1) r s with
      | nil => rw [hr] at hh; simp at hh
      | cons x xs => rw [hr] at hh; simp at hh; simp [hr, hh]
    have := results_mem (s.length + 1) r s p hmem
    exact h ▸ this.2

theorem capLookup_seg {r : Regex} {n : String} {caps : Caps} {s v : Str}
    (hm : pyMatch r s = some caps) (hv : capLookup n caps = some v) :
    isSeg v s = true := by
  unfold capLookup at hv
  cases hf : caps.find? (fun p => p.1 = n) with
  | none => rw [hf] at hv; simp at hv
  | some p =>
    rw [hf] at hv
    simp at hv
    exact hv ▸ pyMatch_caps_seg hm p (List.mem_of_find?_eq_some hf)

/-! ## Where a capture can come from: its group's introducing tag literal
must have matched, so the tag text occurs in the input. -/

theorem starRun_caps_names {body : Str → List (Str × Caps)} {g : Bool} {N : List String}
    (hb : ∀ s p, p ∈ body s → ∀ q ∈ p.2, q.1 ∈ N) :
    ∀ (fuel : Nat) (s : Str) (p : Str × Caps), p ∈ starRun body g fuel s →
      ∀ q ∈ p.2, q.1 ∈ N := by
  intro fuel
  induction fuel with
  | zero =>
    intro s p hp q hq
    cases g <;> simp [starRun] at hp <;> simp [hp] at hq
  | succ f ih =>
    intro s p hp q hq
    have hiter : ∀ r ∈ ((body s).filter (fun p => p.1.length < s.length)).flatMap
        (fun pa => (starRun body g f pa.1).map (fun pb => (pb.1, pb.2 ++ pa.2))),
        ∀ q ∈ r.2, q.1 ∈ N := by
      intro r hr q hq
      obtain ⟨pa, hpa, hr⟩ := List.mem_flatMap.mp hr
      obtain ⟨pb, hpb, rfl⟩ := List.mem_map.mp hr
      rcases List.mem_append.mp hq with h | h
      · exact ih pa.1 pb hpb q h
      · exact hb s pa (List.mem_filter.mp hpa).1 q h
    cases g <;> simp only [starRun, cond_false, cond_true] at hp
    · rcases List.mem_cons.mp hp with h | h
      · simp [h] at hq
      · exact hiter p h q hq
    · rcases List.mem_append.mp hp with h | h
      · exact hiter p h q hq
      · simp at h
        simp [h] at hq

theorem results_caps_names (fuel : Nat) :
    ∀ (r : Regex) (s : Str) (p : Str × Caps), p ∈ results fuel r s →
      ∀ q ∈ p.2, q.1 ∈ grpNames r := by
  intro r
  induction r with
  | eps =>
    intro s p hp q hq
    simp [results] at hp
    simp [hp] at hq
  | lit c =>
    intro s p hp q hq
    cases s with
    | nil => simp [results] at hp
    | cons x xs =>
      simp only [results] at hp
      split at hp <;> simp at hp
      simp [hp] at hq
  | cls pcl =>
    intro s p hp q hq
    cases s with
    | nil => simp [results] at hp
    | cons x xs =>
      simp only [results] at hp
      split at hp <;> simp at hp
      simp [hp] at hq
  | seq a b iha ihb =>
    intro s p hp q hq
    rw [results_seq] at hp
    obtain ⟨pa, hpa, hp⟩ := List.mem_flatMap.mp hp
    obtain ⟨pb, hpb, rfl⟩ := List.mem_map.mp hp
    rcases List.mem_append.mp hq with h | h
    · exact List.mem_append.mpr (Or.inr (ihb pa.1 pb hpb q h))
    · exact List.mem_append.mpr (Or.inl (iha s pa hpa q h))
  | alt a b iha ihb =>
    intro s p hp q hq
    rcases List.mem_append.mp hp with h | h
    · exact List.mem_append.mpr (Or.inl (iha s p h q hq))
    · exact List.mem_append.mpr (Or.inr (ihb s p h q hq))
  | opt g a iha =>
    intro s p hp q hq
    cases g <;> simp only [results, cond_false, cond_true] at hp
    · rcases List.mem_cons.mp hp with h | h
      · simp [h] at hq
      · exact iha s p h q hq
    · rcases List.mem_append.mp hp with h | h
      · exact iha s p h q hq
      · simp at h
        simp [h] at hq
  | star g a iha =>
    intro s p hp q hq
    exact starRun_caps_names (fun t r hr => iha t r hr) fuel s p hp q hq
  | grp n a iha =>
    intro s p hp q hq
    obtain ⟨pa, hpa, rfl⟩ := List.mem_map.mp hp
    rcases List.mem_cons.mp hq with h | h
    · simp [grpNames, h]
    · exact List.mem_cons_of_mem _ (iha s pa hpa q h)
  | look a _ =>
    intro s p hp q hq
    simp only [results] at hp
    split at hp <;> simp at hp
    simp [hp] at hq
  | dollar =>
    intro s p hp q hq
    simp only [results] at hp
    split at hp <;> simp at hp
    simp [hp] at hq

theorem pyMatch_mem {r : Regex} {s : Str} {caps : Caps}
    (h : pyMatch r s = some caps) :
    ∃ p ∈ results (s.length + 1) r s, p.2 = caps := by
  unfold pyMatch at h
  cases hh : (results (s.length + 1) r s).head? with
  | none => rw [hh] at h; simp at h
  | some p =>
    rw [hh] at h
    simp at h
    refine ⟨p, ?_, h⟩
    cases hr : results (s.length + 1) r s with
    | nil => rw [hr] at hh; simp at hh
    | cons x xs => rw [hr] at hh; simp at hh; simp [hr, hh]

theorem capLookup_mem {n : String} {caps : Caps} {v : Str}
    (hv : capLookup n caps = some v) : (n, v) ∈ caps := by
  unfold capLookup at hv
  cases hf : caps.find? (fun p => p.1 = n) with
  | none => rw [hf] at hv; simp at hv
  | some p =>
    rw [hf] at hv
    simp at hv
    have h1 : p.1 = n := by simpa using List.find?_some hf
    have h2 : p ∈ caps := List.mem_of_find?_eq_some hf
    have : (n, v) = p := by
      cases p
      simp_all
    rw [this]
    exact h2

theorem seq_cap_origin {fuel : Nat} {a b : Regex} {s : Str} {p : Str × Caps}
    {nm : String} {v : Str}
    (hp : p ∈ results fuel (.seq a b) s) (hc : (nm, v) ∈ p.2) :
    (∃ pa ∈ results fuel a s, (nm, v) ∈ pa.2) ∨
    (∃ k, ∃ pb ∈ results fuel b (s.drop k), (nm, v) ∈ pb.2) := by
  rw [results_seq] at hp
  obtain ⟨pa, hpa, hp⟩ := List.mem_flatMap.mp hp
  obtain ⟨pb, hpb, rfl⟩ := List.mem_map.mp hp
  rcases List.mem_append.mp hc with h | h
  · obtain ⟨⟨k, hk⟩, -⟩ := results_mem fuel a s pa hpa
    exact Or.inr ⟨k, pb, hk ▸ hpb, h⟩
  · exact Or.inl ⟨pa, hpa, h⟩

theorem seq_ne_nil_left {fuel : Nat} {a b : Regex} {s : Str}
    (h : results fuel (.seq a b) s ≠ []) : results fuel a s ≠ [] := by
  intro h0
  exact h (results_seq_nil b h0)

theorem results_strR_ne_nil {fuel : Nat} {pre s : Str}
    (h : results fuel (strR pre) s ≠ []) : isPre pre s = true := by
  by_cases hp : isPre pre s = true
  · exact hp
  · rw [results_strR, Bool.not_eq_true] at *
    rw [hp] at h
    simp at h

theorem phase_cap_pre1 {fuel : Nat} {pre : Str} {rest : Regex} {s : Str}
    {pa : Str × Caps} {nm : String} {v : Str}
    (hpa : pa ∈ results fuel (.opt true (.seq (strR pre) rest)) s)
    (hc : (nm, v) ∈ pa.2) : isPre pre s = true := by
  rw [results_optG] at hpa
  rcases List.mem_append.mp hpa with h | h
  · exact results_strR_ne_nil (seq_ne_nil_left (List.ne_nil_of_mem h))
  · simp at h
    rw [h] at hc
    simp at hc

theorem phase_cap_pre2 {fuel : Nat} {pre : Str} {K rest : Regex} {s : Str}
    {pa : Str × Caps} {nm : String} {v : Str}
    (hpa : pa ∈ results fuel (.opt true (.seq (.seq (strR pre) K) rest)) s)
    (hc : (nm, v) ∈ pa.2) : isPre pre s = true := by
  rw [results_optG] at hpa
  rcases List.mem_append.mp hpa with h | h
  · exact results_strR_ne_nil
      (seq_ne_nil_left (seq_ne_nil_left (List.ne_nil_of_mem h)))
  · simp at h
    rw [h] at hc
    simp at hc

theorem star_cap_pre {g : Bool} {pre : Str} {rest : Regex} {fuel : Nat} :
    ∀ (f : Nat) (s : Str) (pa : Str × Caps),
      pa ∈ starRun (results fuel (.seq (strR pre) rest)) g f s →
      ∀ nm v, (nm, v) ∈ pa.2 → isSeg pre s = true := by
  intro f
  induction f with
  | zero =>
    intro s pa hpa nm v hc
    cases g <;> simp [starRun] at hpa <;> simp [hpa] at hc
  | succ f ih =>
    intro s pa hpa nm v hc
    have hiter : ∀ r ∈ (((results fuel (.seq (strR pre) rest) s).filter
          (fun p => p.1.length < s.length)).flatMap
          (fun px => (starRun (results fuel (.seq (strR pre) rest)) g f px.1).map
            (fun pb => (pb.1, pb.2 ++ px.2)))),
        (nm, v) ∈ r.2 → isSeg pre s = true := by
      intro r hr hcr
      obtain ⟨px, hpx, hr⟩ := List.mem_flatMap.mp hr
      have hmem : px ∈ results fuel (.seq (strR pre) rest) s :=
        (List.mem_filter.mp hpx).1
      obtain ⟨pb, hpb, rfl⟩ := List.mem_map.mp hr
      rcases List.mem_append.mp hcr with h | h
      · obtain ⟨⟨k, hk⟩, -⟩ := results_mem fuel _ s px hmem
        exact isSeg_drop k s pre (hk ▸ ih px.1 pb hpb nm v h)
      · exact isSeg_of_isPre
          (results_strR_ne_nil (seq_ne_nil_left (List.ne_nil_of_mem hmem)))
    cases g <;> simp only [starRun, cond_false, cond_true] at hpa
    · rcases List.mem_cons.mp hpa with h | h
      · simp [h] at hc
      · exact hiter pa h hc
    · rcases List.mem_append.mp hpa with h | h
      · exact hiter pa h hc
      · simp at h
        simp [h] at hc

theorem TagOrigin_drop {nm : String} {s : Str} {k : Nat}
    (h : TagOrigin nm (s.drop k)) : TagOrigin nm s :=
  fun pre hpre => isSeg_drop k s pre (h pre hpre)

theorem walk_dollar {fuel : Nat} :
    ∀ (s : Str) (p : Str × Caps), p ∈ results fuel Regex.dollar s →
      ∀ nm v, (nm, v) ∈ p.2 → TagOrigin nm s := by
  intro s p hp nm v hc
  simp only [results] at hp
  split at hp <;> simp at hp
  simp [hp] at hc

theorem grpNames_strR : ∀ (cs : Str), grpNames (strR cs) = [] := by
  intro cs
  induction cs with
  | nil => rfl
  | cons c t ih =>
    show grpNames (.seq (.lit c) (strR t)) = []
    simp [grpNames, ih]

theorem walk_step_opt1 {fuel : Nat} {pre : Str} {rest TAIL : Regex}
    (hpre : ∀ x ∈ grpNames rest, tagPre x = some pre)
    (hT : ∀ t q, q ∈ results fuel TAIL t → ∀ nm v, (nm, v) ∈ q.2 → TagOrigin nm t) :
    ∀ s p, p ∈ results fuel (.seq (.opt true (.seq (strR pre) rest)) TAIL) s →
      ∀ nm v, (nm, v) ∈ p.2 → TagOrigin nm s := by
  intro s p hp nm v hc
  rcases seq_cap_origin hp hc with ⟨pa, hpa, hca⟩ | ⟨k, pb, hpb, hcb⟩
  · have hP : isPre pre s = true := phase_cap_pre1 hpa hca
    have hnm : nm ∈ grpNames rest := by
      have := results_caps_names fuel _ s pa hpa (nm, v) hca
      simpa [grpNames, grpNames_strR] using this
    intro pre' hlook
    rw [hpre nm hnm] at hlook
    cases hlook
    exact isSeg_of_isPre hP
  · exact TagOrigin_drop (hT _ pb hpb nm v hcb)

theorem walk_step_opt2 {fuel : Nat} {pre : Str} {K rest TAIL : Regex}
    (hK : grpNames K = [])
    (hpre : ∀ x ∈ grpNames rest, tagPre x = some pre)
    (hT : ∀ t q, q ∈ results fuel TAIL t → ∀ nm v, (nm, v) ∈ q.2 → TagOrigin nm t) :
    ∀ s p, p ∈ results fuel (.seq (.opt true (.seq (.seq (strR pre) K) rest)) TAIL) s →
      ∀ nm v, (nm, v) ∈ p.2 → TagOrigin nm s := by
  intro s p hp nm v hc
  rcases seq_cap_origin hp hc with ⟨pa, hpa, hca⟩ | ⟨k, pb, hpb, hcb⟩
  · have hP : isPre pre s = true := phase_cap_pre2 hpa hca
    have hnm : nm ∈ grpNames rest := by
      have := results_caps_names fuel _ s pa hpa (nm, v) hca
      simpa [grpNames, grpNames_strR, hK] using this
    intro pre' hlook
    rw [hpre nm hnm] at hlook
    cases hlook
    exact isSeg_of_isPre hP
  · exact TagOrigin_drop (hT _ pb hpb nm v hcb)

theorem walk_step_star {fuel : Nat} {g : Bool} {pre : Str} {rest TAIL : Regex}
    (hpre : ∀ x ∈ grpNames rest, tagPre x = some pre)
    (hT : ∀ t q, q ∈ results fuel TAIL t → ∀ nm v, (nm, v) ∈ q.2 → TagOrigin nm t) :
    ∀ s p, p ∈ results fuel (.seq (.star g (.seq (strR pre) rest)) TAIL) s →
      ∀ nm v, (nm, v) ∈ p.2 → TagOrigin nm s := by
  intro s p hp nm v hc
  rcases seq_cap_origin hp hc with ⟨pa, hpa, hca⟩ | ⟨k, pb, hpb, hcb⟩
  · have hSeg : isSeg pre s = true := by
      have : pa ∈ starRun (results fuel (.seq (strR pre) rest)) g fuel s := hpa
      exact star_cap_pre fuel s pa this nm v hca
    have hnm : nm ∈ grpNames rest := by
      have := results_caps_names fuel _ s pa hpa (nm, v) hca
      simpa [grpNames, grpNames_strR] using this
    intro pre' hlook
    rw [hpre nm hnm] at hlook
    cases hlook
    exact hSeg
  · exact TagOrigin_drop (hT _ pb hpb nm v hcb)

/-- Any capture produced by any outcome of `textRegex` forces its group's
introducing tag literal to occur contiguously in the input: the walk
descends the 22 phases, at each one either originating the capture at the
current suffix (so the tag's literal prefix matched there) or passing to
the tail at a further suffix. -/
theorem textRegex_cap_tag (fuel : Nat) :
    ∀ (s : Str) (p : Str × Caps), p ∈ results fuel textRegex s →
      ∀ nm v, (nm, v) ∈ p.2 → TagOrigin nm s := by
  unfold textRegex textAfter32A colonTag variantTag freeTag tag13C tag32A tag33B tag53 tag71F optG litS
  exact
    walk_step_opt1 (by decide)
    (walk_step_star (by decide)
    (walk_step_opt1 (by decide)
    (walk_step_opt1 (by decide)
    (walk_step_opt1 (by decide)
    (walk_step_opt1 (by decide)
    (walk_step_opt1 (by decide)
    (walk_step_opt1 (by decide)
    (walk_step_opt2 (by rfl) (by decide)
    (walk_step_opt1 (by decide)
    (walk_step_opt2 (by rfl) (by decide)
    (walk_step_opt1 (by decide)
    (walk_step_opt2 (by rfl) (by decide)
    (walk_step_opt2 (by rfl) (by decide)
    (walk_step_opt2 (by rfl) (by decide)
    (walk_step_opt2 (by rfl) (by decide)
    (walk_step_opt1 (by decide)
    (walk_step_opt1 (by decide)
    (walk_step_star (by decide)
    (walk_step_opt1 (by decide)
    (walk_step_opt1 (by decide)
    (walk_step_opt1 (by decide)
    walk_dollar)))))))))))))))))))))

/-- Specialisation to a committed match: every capture of a successful
`pyMatch` against `Text.REGEX` has its tag text somewhere in the input. -/
theorem pyMatch_cap_tag {s : Str} {caps : Caps}
    (hm : pyMatch textRegex s = some caps) :
    ∀ nm v, (nm, v) ∈ caps → TagOrigin nm s := by
  obtain ⟨p, hp, hpc⟩ := pyMatch_mem hm
  intro nm v hc
  exact textRegex_cap_tag (s.length + 1) s p hp nm v (by rw [hpc]; exact hc)

/-! ## Rejection of all-whitespace input by the two anchored grammars -/

theorem strR_nil {fuel : Nat} {pre s : Str} (hp : isPre pre s = false) :
    results fuel (strR pre) s = [] := by
  rw [results_strR, hp]
  simp

theorem skip_group' {fuel : Nat} {a : Regex} {s : Str} (b : Regex)
    (hA : results fuel a s = []) :
    results fuel (.seq (.opt true a) b) s = results fuel b s := by
  rw [results_seq_optG, results_seq_nil b hA]
  simp

theorem skip_star' {fuel : Nat} {a : Regex} {g : Bool} {s : Str} (b : Regex)
    (hA : results fuel a s = []) :
    results fuel (.seq (.star g a) b) s = results fuel b s :=
  results_seq_star_skip b hA

theorem isPre_cons_false {p0 c : Char} {v cs : Str} (h : p0 ≠ c) :
    isPre (p0 :: v) (c :: cs) = false := by
  simp [isPre, h]

theorem space_ne_colon {c : Char} (hc : isPySpace c = true) : (':' : Char) ≠ c := by
  intro h
  rw [← h] at hc
  exact absurd hc (by decide)

theorem space_ne_brace {c : Char} (hc : isPySpace c = true) : ('\x7b' : Char) ≠ c := by
  intro h
  rw [← h] at hc
  exact absurd hc (by decide)

theorem textRegex_space (fuel : Nat) {c : Char} (cs : Str) (hc : isPySpace c = true) :
    results fuel textRegex (c :: cs) =
      if c :: cs = ['\n'] then [((c :: cs : Str), [])] else [] := by
  have hco := space_ne_colon hc
  unfold textRegex textAfter32A colonTag variantTag freeTag tag13C tag32A tag33B tag53 tag71F optG litS
  refine ((skip_group' _ (results_seq_nil _ (strR_nil (isPre_cons_false hco)))).trans ?_)
  refine ((skip_star' _ (results_seq_nil _ (strR_nil (isPre_cons_false hco)))).trans ?_)
  refine ((skip_group' _ (results_seq_nil _ (strR_nil (isPre_cons_false hco)))).trans ?_)
  refine ((skip_group' _ (results_seq_nil _ (strR_nil (isPre_cons_false hco)))).trans ?_)
  refine ((skip_group' _ (results_seq_nil _ (strR_nil (isPre_cons_false hco)))).trans ?_)
  refine ((skip_group' _ (results_seq_nil _ (strR_nil (isPre_cons_false hco)))).trans ?_)
  refine ((skip_group' _ (results_seq_nil _ (strR_nil (isPre_cons_false hco)))).trans ?_)
  refine ((skip_group' _ (results_seq_nil _ (strR_nil (isPre_cons_false hco)))).trans ?_)
  refine ((skip_group' _ (results_seq_nil _
    (results_seq_nil _ (strR_nil (isPre_cons_false hco))))).trans ?_)
  refine ((skip_group' _ (results_seq_nil _ (strR_nil (isPre_cons_false hco)))).trans ?_)
  refine ((skip_group' _ (results_seq_nil _
    (results_seq_nil _ (strR_nil (isPre_cons_false hco))))).trans ?_)
  refine ((skip_group' _ (results_seq_nil _ (strR_nil (isPre_cons_false hco)))).trans ?_)
  refine ((skip_group' _ (results_seq_nil _
    (results_seq_nil _ (strR_nil (isPre_cons_false hco))))).trans ?_)
  refine ((skip_group' _ (results_seq_nil _
    (results_seq_nil _ (strR_nil (isPre_cons_false hco))))).trans ?_)
  refine ((skip_group' _ (results_seq_nil _
    (results_seq_nil _ (strR_nil (isPre_cons_false hco))))).trans ?_)
  refine ((skip_group' _ (results_seq_nil _
    (results_seq_nil _ (strR_nil (isPre_cons_false hco))))).trans ?_)
  refine ((skip_group' _ (results_seq_nil _ (strR_nil (isPre_cons_false hco)))).trans ?_)
  refine ((skip_group' _ (results_seq_nil _ (strR_nil (isPre_cons_false hco)))).trans ?_)
  refine ((skip_star' _ (results_seq_nil _ (strR_nil (isPre_cons_false hco)))).trans ?_)
  refine ((skip_group' _ (results_seq_nil _ (strR_nil (isPre_cons_false hco)))).trans ?_)
  refine ((skip_group' _ (results_seq_nil _ (strR_nil (isPre_cons_false hco)))).trans ?_)
  refine ((skip_group' _ (results_seq_nil _ (strR_nil (isPre_cons_false hco)))).trans ?_)
  simp [results]

theorem userHeaderRegex_space (fuel : Nat) {c : Char} (cs : Str) (hc : isPySpace c = true) :
    results fuel userHeaderRegex (c :: cs) =
      if c :: cs = ['\n'] then [((c :: cs : Str), [])] else [] := by
  have hbr := space_ne_brace hc
  unfold userHeaderRegex uhGroup optG litS
  refine ((skip_group' _ (results_seq_nil _ (strR_nil (isPre_cons_false hbr)))).trans ?_)
  refine ((skip_group' _ (results_seq_nil _ (strR_nil (isPre_cons_false hbr)))).trans ?_)
  refine ((skip_group' _ (results_seq_nil _ (strR_nil (isPre_cons_false hbr)))).trans ?_)
  refine ((skip_group' _ (results_seq_nil _ (strR_nil (isPre_cons_false hbr)))).trans ?_)
  simp [results]

theorem pyMatch_textRegex_space {c : Char} {cs : Str} (hc : isPySpace c = true) :
    pyMatch textRegex (c :: cs) = if c :: cs = ['\n'] then some [] else none := by
  unfold pyMatch
  rw [textRegex_space _ _ hc]
  by_cases h : c :: cs = ['\n'] <;> simp [h]

theorem pyMatch_userHeaderRegex_space {c : Char} {cs : Str} (hc : isPySpace c = true) :
    pyMatch userHeaderRegex (c :: cs) = if c :: cs = ['\n'] then some [] else none := by
  unfold pyMatch
  rw [userHeaderRegex_space _ _ hc]
  by_cases h : c :: cs = ['\n'] <;> simp [h]

theorem det_seq_repN {fuel : Nat} {p : Char → Bool} {n : Nat} {s : Str} (b : Regex) :
    results fuel (.seq (repN (.cls p) n) b) s =
      if takesCls p n s then results fuel b (s.drop n) else [] := by
  rw [det_seq b (det_repN_cls fuel p n s)]
  cases h : takesCls p n s <;> simp

theorem det_seq_lit {fuel : Nat} {c : Char} {s : Str} (b : Regex) :
    results fuel (.seq (.lit c) b) s =
      if headIs c s then results fuel b (s.drop 1) else [] := by
  rw [det_seq b (det_lit fuel c s)]
  cases h : headIs c s <;> simp

theorem det_seq_cls {fuel : Nat} {p : Char → Bool} {s : Str} (b : Regex) :
    results fuel (.seq (.cls p) b) s =
      if headCl p s then results fuel b (s.drop 1) else [] := by
  rw [det_seq b (det_cls fuel p s)]
  cases h : headCl p s <;> simp

/-- The `{121:}` value pattern is deterministic: it either consumes exactly 36
characters satisfying `uuidCheck` or fails. -/
theorem results_uuidR (fuel : Nat) (t : Str) :
    results fuel uuidR t = if uuidCheck t then [(t.drop 36, [])] else [] := by
  unfold uuidR uuidCheck
  rw [det_seq_repN, det_seq_lit, det_seq_repN, det_seq_lit, det_seq_lit, det_seq_repN,
    det_seq_lit, det_seq_cls, det_seq_repN, det_seq_lit, det_repN_cls]
  simp only [List.drop_drop]
  norm_num
  simp only [if_if_bool]
  simp [Bool.and_eq_true, and_assoc]

theorem isVariantB_alnum {v : Char} (h : isVariantB v = true) : isAlnumB v = true := by
  have hv : v = '8' ∨ v = '9' ∨ v = 'a' ∨ v = 'b' := by
    simpa [isVariantB, or_assoc] using h
  rcases hv with rfl | rfl | rfl | rfl <;> decide

theorem takesCls_append' {p : Char → Bool} {a : Str} (r : Str) {n : Nat}
    (h : ∀ c ∈ a, p c = true) (hl : a.length = n) : takesCls p n (a ++ r) = true :=
  hl ▸ takesCls_of_append r h

theorem drop_append_singleton_ne {s : Str} {x y : Char} (hxy : x ≠ y) (n : Nat) :
    (s ++ [x]).drop n ≠ [y] := by
  intro h
  have h2 : s ++ [x] = (s ++ [x]).take n ++ [y] := by
    conv_lhs => rw [← List.take_append_drop n (s ++ [x])]
    rw [h]
  have h3 := congrArg List.reverse h2
  simp [List.reverse_append] at h3
  exact hxy h3.1

/-- Full evaluation of `UserHeader.REGEX` on `\x7b121:\x7d`-wrapped input. -/
theorem uh_wrap_res (fuel : Nat) (s : Str) :
    results fuel userHeaderRegex ('\x7b' :: '1' :: '2' :: '1' :: ':' :: (s ++ ['\x7d'])) =
      if uuidCheck (s ++ ['\x7d']) then
        (if headIs '\x7d' ((s ++ ['\x7d']).drop 36) then
          (if (s ++ ['\x7d']).drop 37 = [] ∨ (s ++ ['\x7d']).drop 37 = ['\n'] then
            [((s ++ ['\x7d']).drop 37,
              [(("uetr"),
                (s ++ ['\x7d']).take ((s ++ ['\x7d']).length - ((s ++ ['\x7d']).drop 36).length))])]
          else []) else []) else [] := by
  unfold userHeaderRegex uhGroup optG litS
  refine ((skip_group' _ (results_seq_nil _ (strR_nil (by simp [isPre])))).trans ?_)
  refine ((skip_group' _ (results_seq_nil _ (strR_nil (by simp [isPre])))).trans ?_)
  refine ((skip_group' _ (results_seq_nil _ (strR_nil (by simp [isPre])))).trans ?_)
  rw [results_seq_optG]
  simp only [results_seq_assoc]
  rw [results_seq_strR]
  have hp : isPre (("\x7b121:").data)
      ('\x7b' :: '1' :: '2' :: '1' :: ':' :: (s ++ ['\x7d'])) = true := by simp [isPre]
  rw [hp, if_pos rfl]
  simp only [List.length_cons, List.length_nil, List.drop_succ_cons, List.drop_zero]
  simp only [results_seq_assoc]
  rw [det_seq _ (det_grp ("uetr") (results_uuidR fuel (s ++ ['\x7d'])))]
  rw [det_seq_lit]
  simp only [List.drop_drop]
  norm_num
  by_cases hA : uuidCheck (s ++ ['\x7d']) = true <;>
  by_cases hB : headIs '\x7d' ((s ++ ['\x7d']).drop 36) = true <;>
  by_cases hC : ((s ++ ['\x7d']).drop 37 = [] ∨ (s ++ ['\x7d']).drop 37 = ['\n']) <;>
    simp [results, hA, hB, hC] <;>
    (try (split <;> simp))

/-- Acceptance of a wrapped `121` payload, reduced to the three boundary
conditions of the pattern. -/
theorem uh_wrap_key (s : Str) :
    ((UserHeader.parse (("\x7b121:").data ++ s ++ ("\x7d").data)).boolean = true) ↔
      (uuidCheck (s ++ ['\x7d']) = true ∧
       headIs '\x7d' ((s ++ ['\x7d']).drop 36) = true ∧
       ((s ++ ['\x7d']).drop 37 = [] ∨ (s ++ ['\x7d']).drop 37 = ['\n'])) := by
  have hw : ("\x7b121:").data ++ s ++ ("\x7d").data =
      '\x7b' :: '1' :: '2' :: '1' :: ':' :: (s ++ ['\x7d']) := rfl
  rw [hw]
  unfold UserHeader.parse
  rw [if_neg (by simp : ¬('\x7b' :: '1' :: '2' :: '1' :: ':' :: (s ++ ['\x7d']) = []))]
  unfold pyMatch
  rw [uh_wrap_res]
  by_cases hA : uuidCheck (s ++ ['\x7d']) = true
  · rw [if_pos hA]
    by_cases hB : headIs '\x7d' ((s ++ ['\x7d']).drop 36) = true
    · rw [if_pos hB]
      by_cases hC : ((s ++ ['\x7d']).drop 37 = [] ∨ (s ++ ['\x7d']).drop 37 = ['\n'])
      · rw [if_pos hC]
        simp [hA, hB]
        rcases hC with h | h
        · left
          have hlen := congrArg List.length h
          simp [List.length_drop, List.length_append] at hlen
          omega
        · right
          exact h
      · rw [if_neg hC]
        push_neg at hC
        simp [hA, hB]
        refine ⟨?_, hC.2⟩
        by_contra hlen
        push_neg at hlen
        exact hC.1 (List.drop_eq_nil_of_le (by simp [List.length_append]; omega))
    · rw [if_neg hB]
      simp [hA, hB]
  · rw [if_neg hA]
    simp [hA]

theorem shape_key {s : Str} (hs : uetrShapeP s) :
    uuidCheck (s ++ ['\x7d']) = true ∧
    headIs '\x7d' ((s ++ ['\x7d']).drop 36) = true ∧
    ((s ++ ['\x7d']).drop 37 = [] ∨ (s ++ ['\x7d']).drop 37 = ['\n']) := by
  obtain ⟨g1, g2, g3, g4, g5, rfl, l1, l2, l3, l4, l5, a1, a2, a3, a4, a5, h3h, v, h4h, hv⟩ := hs
  obtain ⟨g3', rfl⟩ : ∃ g3', g3 = '4' :: g3' := by
    cases g3 with
    | nil => simp at h3h
    | cons a l =>
      simp at h3h
      exact ⟨l, by rw [h3h]⟩
  obtain ⟨g4', rfl⟩ : ∃ g4', g4 = v :: g4' := by
    cases g4 with
    | nil => simp at h4h
    | cons a l =>
      simp at h4h
      exact ⟨l, by rw [h4h]⟩
  have l3' : g3'.length = 3 := by simpa using l3
  have l4' : g4'.length = 3 := by simpa using l4
  have a3' : ∀ c ∈ g3', isAlnumB c = true := fun c hc => a3 c (List.mem_cons_of_mem _ hc)
  have a4' : ∀ c ∈ g4', isAlnumB c = true := fun c hc => a4 c (List.mem_cons_of_mem _ hc)
  set t := (g1 ++ '-' :: (g2 ++ '-' :: ('4' :: g3' ++ '-' :: (v :: g4' ++ '-' :: g5)))) ++ ['\x7d'] with ht
  have t0 : t = g1 ++ '-' :: (g2 ++ '-' :: ('4' :: g3' ++ '-' :: (v :: g4' ++ '-' :: (g5 ++ ['\x7d'])))) := by
    rw [ht]
    simp
  have d8 : t.drop 8 =
      '-' :: (g2 ++ '-' :: ('4' :: g3' ++ '-' :: (v :: g4' ++ '-' :: (g5 ++ ['\x7d'])))) := by
    rw [t0]
    exact List.drop_left' l1
  have d9 : t.drop 9 = g2 ++ '-' :: ('4' :: g3' ++ '-' :: (v :: g4' ++ '-' :: (g5 ++ ['\x7d']))) := by
    rw [show t = (g1 ++ ['-']) ++
        (g2 ++ '-' :: ('4' :: g3' ++ '-' :: (v :: g4' ++ '-' :: (g5 ++ ['\x7d'])))) from by
      rw [t0]; simp]
    exact List.drop_left' (by simp [l1])
  have d13 : t.drop 13 = '-' :: ('4' :: g3' ++ '-' :: (v :: g4' ++ '-' :: (g5 ++ ['\x7d']))) := by
    rw [show t = (g1 ++ ['-'] ++ g2) ++
        ('-' :: ('4' :: g3' ++ '-' :: (v :: g4' ++ '-' :: (g5 ++ ['\x7d'])))) from by
      rw [t0]; simp]
    exact List.drop_left' (by simp [l1, l2])
  have d14 : t.drop 14 = '4' :: g3' ++ '-' :: (v :: g4' ++ '-' :: (g5 ++ ['\x7d'])) := by
    rw [show t = (g1 ++ ['-'] ++ g2 ++ ['-']) ++
        ('4' :: g3' ++ '-' :: (v :: g4' ++ '-' :: (g5 ++ ['\x7d']))) from by
      rw [t0]; simp]
    exact List.drop_left' (by simp [l1, l2])
  have d15 : t.drop 15 = g3' ++ '-' :: (v :: g4' ++ '-' :: (g5 ++ ['\x7d'])) := by
    rw [show t = (g1 ++ ['-'] ++ g2 ++ ['-'] ++ ['4']) ++
        (g3' ++ '-' :: (v :: g4' ++ '-' :: (g5 ++ ['\x7d']))) from by
      rw [t0]; simp]
    exact List.drop_left' (by simp [l1, l2])
  have d18 : t.drop 18 = '-' :: (v :: g4' ++ '-' :: (g5 ++ ['\x7d'])) := by
    rw [show t = (g1 ++ ['-'] ++ g2 ++ ['-'] ++ ['4'] ++ g3') ++
        ('-' :: (v :: g4' ++ '-' :: (g5 ++ ['\x7d']))) from by
      rw [t0]; simp]
    exact List.drop_left' (by simp [l1, l2, l3'])
  have d19 : t.drop 19 = v :: g4' ++ '-' :: (g5 ++ ['\x7d']) := by
    rw [show t = (g1 ++ ['-'] ++ g2 ++ ['-'] ++ ['4'] ++ g3' ++ ['-']) ++
        (v :: g4' ++ '-' :: (g5 ++ ['\x7d'])) from by
      rw [t0]; simp]
    exact List.drop_left' (by simp [l1, l2, l3'])
  have d20 : t.drop 20 = g4' ++ '-' :: (g5 ++ ['\x7d']) := by
    rw [show t = (g1 ++ ['-'] ++ g2 ++ ['-'] ++ ['4'] ++ g3' ++ ['-'] ++ [v]) ++
        (g4' ++ '-' :: (g5 ++ ['\x7d'])) from by
      rw [t0]; simp]
    exact List.drop_left' (by simp [l1, l2, l3'])
  have d23 : t.drop 23 = '-' :: (g5 ++ ['\x7d']) := by
    rw [show t = (g1 ++ ['-'] ++ g2 ++ ['-'] ++ ['4'] ++ g3' ++ ['-'] ++ [v] ++ g4') ++
        ('-' :: (g5 ++ ['\x7d'])) from by
      rw [t0]; simp]
    exact List.drop_left' (by simp [l1, l2, l3', l4'])
  have d24 : t.drop 24 = g5 ++ ['\x7d'] := by
    rw [show t = (g1 ++ ['-'] ++ g2 ++ ['-'] ++ ['4'] ++ g3' ++ ['-'] ++ [v] ++ g4' ++ ['-']) ++
        (g5 ++ ['\x7d']) from by
      rw [t0]; simp]
    exact List.drop_left' (by simp [l1, l2, l3', l4'])
  have d36 : t.drop 36 = ['\x7d'] := by
    rw [show t = (g1 ++ ['-'] ++ g2 ++ ['-'] ++ ['4'] ++ g3' ++ ['-'] ++ [v] ++ g4' ++ ['-'] ++ g5) ++
        ['\x7d'] from by
      rw [t0]; simp]
    exact List.drop_left' (by simp [l1, l2, l3', l4', l5])
  have d37 : t.drop 37 = [] := by
    have h1 := congrArg (List.drop 1) d36
    simpa [List.drop_drop] using h1
  refine ⟨?_, ?_, Or.inl d37⟩
  · unfold uuidCheck
    rw [d8, d9, d13, d14, d15, d18, d19, d20, d23, d24]
    simp only [Bool.and_eq_true]
    refine ⟨?_, by simp [headIs], ?_, by simp [headIs], by simp [headIs], ?_,
      by simp [headIs], ?_, ?_, by simp [headIs], ?_⟩
    · rw [t0]
      exact takesCls_append' _ a1 l1
    · exact takesCls_append' _ a2 l2
    · exact takesCls_append' _ a3' l3'
    · simp only [List.cons_append, headCl]
      exact hv
    · exact takesCls_append' _ a4' l4'
    · exact takesCls_append' _ a5 l5
  · rw [d36]
    simp [headIs]

theorem key_shape {s : Str}
    (hA : uuidCheck (s ++ ['\x7d']) = true)
    (hB : headIs '\x7d' ((s ++ ['\x7d']).drop 36) = true)
    (hC : (s ++ ['\x7d']).drop 37 = [] ∨ (s ++ ['\x7d']).drop 37 = ['\n']) :
    uetrShapeP s := by
  set t := s ++ ['\x7d'] with ht
  have hC0 : t.drop 37 = [] := by
    rcases hC with h | h
    · exact h
    · exact absurd h (by rw [ht]; exact drop_append_singleton_ne (by decide) 37)
  unfold uuidCheck at hA
  simp only [Bool.and_eq_true] at hA
  obtain ⟨hA1, hA2, hA3, hA4, hA5, hA6, hA7, hA8, hA9, hA10, hA11⟩ := hA
  obtain ⟨g1, e1, l1, a1⟩ := takesCls_split hA1
  have n9 : (t.drop 8).drop 1 = t.drop 9 := by simp [List.drop_drop]
  have e2 : t.drop 8 = '-' :: t.drop 9 := by
    rw [← n9]
    exact headIs_split hA2
  obtain ⟨g2, e3, l2, a2⟩ := takesCls_split hA3
  have n13 : (t.drop 9).drop 4 = t.drop 13 := by simp [List.drop_drop]
  rw [n13] at e3
  have n14 : (t.drop 13).drop 1 = t.drop 14 := by simp [List.drop_drop]
  have e4 : t.drop 13 = '-' :: t.drop 14 := by
    rw [← n14]
    exact headIs_split hA4
  have n15 : (t.drop 14).drop 1 = t.drop 15 := by simp [List.drop_drop]
  have e5 : t.drop 14 = '4' :: t.drop 15 := by
    rw [← n15]
    exact headIs_split hA5
  obtain ⟨c3, e6, lc3, ac3⟩ := takesCls_split hA6
  have n18 : (t.drop 15).drop 3 = t.drop 18 := by simp [List.drop_drop]
  rw [n18] at e6
  have n19 : (t.drop 18).drop 1 = t.drop 19 := by simp [List.drop_drop]
  have e7 : t.drop 18 = '-' :: t.drop 19 := by
    rw [← n19]
    exact headIs_split hA7
  obtain ⟨v, e8v, hv⟩ := headCl_split hA8
  have n20 : (t.drop 19).drop 1 = t.drop 20 := by simp [List.drop_drop]
  rw [n20] at e8v
  obtain ⟨d3, e9, ld3, ad3⟩ := takesCls_split hA9
  have n23 : (t.drop 20).drop 3 = t.drop 23 := by simp [List.drop_drop]
  rw [n23] at e9
  have n24 : (t.drop 23).drop 1 = t.drop 24 := by simp [List.drop_drop]
  have e10 : t.drop 23 = '-' :: t.drop 24 := by
    rw [← n24]
    exact headIs_split hA10
  obtain ⟨g5, e11, l5, a5⟩ := takesCls_split hA11
  have n36 : (t.drop 24).drop 12 = t.drop 36 := by simp [List.drop_drop]
  rw [n36] at e11
  have n37 : (t.drop 36).drop 1 = t.drop 37 := by simp [List.drop_drop]
  have e12 : t.drop 36 = '\x7d' :: t.drop 37 := by
    rw [← n37]
    exact headIs_split hB
  rw [hC0] at e12
  rw [e2, e3, e4, e5, e6, e7, e8v, e9, e10, e11, e12] at e1
  have hS : s = g1 ++ '-' :: (g2 ++ '-' :: (('4' :: c3) ++ '-' :: ((v :: d3) ++ '-' :: g5))) := by
    apply append_cancel_last (x := '\x7d')
    rw [← ht, e1]
    simp
  refine ⟨g1, g2, '4' :: c3, v :: d3, g5, hS, l1, l2, by simp [lc3], by simp [ld3], l5,
    a1, a2, ?_, ?_, a5, rfl, ⟨v, rfl, hv⟩⟩
  · intro c hc
    rcases List.mem_cons.mp hc with rfl | hc
    · decide
    · exact ac3 c hc
  · intro c hc
    rcases List.mem_cons.mp hc with rfl | hc
    · exact isVariantB_alnum hv
    · exact ad3 c hc

/-- Evaluation of `Text.REGEX` on a `:32A:`-only body with six arbitrary
digit characters in the date positions. -/
theorem results_C8_aux (c1 c2 c3 c4 c5 c6 : Char)
    (h1 : isDigitB c1 = true) (h2 : isDigitB c2 = true) (h3 : isDigitB c3 = true)
    (h4 : isDigitB c4 = true) (h5 : isDigitB c5 = true) (h6 : isDigitB c6 = true) :
    results 18 textRegex
      (':' :: '3' :: '2' :: 'A' :: ':' :: c1 :: c2 :: c3 :: c4 :: c5 :: c6 ::
        'U' :: 'S' :: 'D' :: '1' :: ',' :: '0' :: []) =
      [([], [(("interbank_settled_amount"), ['1', ',', '0']),
             (("interbank_settled_currency"), ['U', 'S', 'D']),
             (("date_day"), [c5, c6]), (("date_month"), [c3, c4]),
             (("date_year"), [c1, c2])])] := by
  unfold textRegex colonTag tag13C tag32A optG litS
  refine ((skip_group' _ (results_seq_nil _ (strR_nil (by simp [isPre])))).trans ?_)
  refine ((skip_star' _ (results_seq_nil _ (strR_nil (by simp [isPre])))).trans ?_)
  refine ((skip_group' _ (results_seq_nil _ (strR_nil (by simp [isPre])))).trans ?_)
  refine ((skip_group' _ (results_seq_nil _ (strR_nil (by simp [isPre])))).trans ?_)
  refine ((skip_group' _ (results_seq_nil _ (strR_nil (by simp [isPre])))).trans ?_)
  rw [results_seq_optG]
  have hskip : results 18 textAfter32A
      (':' :: '3' :: '2' :: 'A' :: ':' :: c1 :: c2 :: c3 :: c4 :: c5 :: c6 ::
        'U' :: 'S' :: 'D' :: '1' :: ',' :: '0' :: []) = [] := by
    unfold textAfter32A colonTag variantTag freeTag tag33B tag53 tag71F optG litS
    refine ((skip_group' _ (results_seq_nil _ (strR_nil (by simp [isPre])))).trans ?_)
    refine ((skip_group' _ (results_seq_nil _ (strR_nil (by simp [isPre])))).trans ?_)
    refine ((skip_group' _ (results_seq_nil _
      (results_seq_nil _ (strR_nil (by simp [isPre]))))).trans ?_)
    refine ((skip_group' _ (results_seq_nil _ (strR_nil (by simp [isPre])))).trans ?_)
    refine ((skip_group' _ (results_seq_nil _
      (results_seq_nil _ (strR_nil (by simp [isPre]))))).trans ?_)
    refine ((skip_group' _ (results_seq_nil _ (strR_nil (by simp [isPre])))).trans ?_)
    refine ((skip_group' _ (results_seq_nil _
      (results_seq_nil _ (strR_nil (by simp [isPre]))))).trans ?_)
    refine ((skip_group' _ (results_seq_nil _
      (results_seq_nil _ (strR_nil (by simp [isPre]))))).trans ?_)
    refine ((skip_group' _ (results_seq_nil _
      (results_seq_nil _ (strR_nil (by simp [isPre]))))).trans ?_)
    refine ((skip_group' _ (results_seq_nil _
      (results_seq_nil _ (strR_nil (by simp [isPre]))))).trans ?_)
    refine ((skip_group' _ (results_seq_nil _ (strR_nil (by simp [isPre])))).trans ?_)
    refine ((skip_group' _ (results_seq_nil _ (strR_nil (by simp [isPre])))).trans ?_)
    refine ((skip_star' _ (results_seq_nil _ (strR_nil (by simp [isPre])))).trans ?_)
    refine ((skip_group' _ (results_seq_nil _ (strR_nil (by simp [isPre])))).trans ?_)
    refine ((skip_group' _ (results_seq_nil _ (strR_nil (by simp [isPre])))).trans ?_)
    refine ((skip_group' _ (results_seq_nil _ (strR_nil (by simp [isPre])))).trans ?_)
    simp [results]
  rw [hskip, List.append_nil]
  simp only [results_seq_assoc]
  rw [results_seq_strR]
  have hp32 : isPre ((":32A:").data)
      (':' :: '3' :: '2' :: 'A' :: ':' :: c1 :: c2 :: c3 :: c4 :: c5 :: c6 ::
        'U' :: 'S' :: 'D' :: '1' :: ',' :: '0' :: []) = true := by simp [isPre]
  rw [hp32, if_pos rfl]
  simp only [List.length_cons, List.length_nil, List.drop_succ_cons, List.drop_zero]
  simp only [results_seq_assoc]
  rw [det_seq_grp_repN _ (show takesCls isDigitB 2
      (c1 :: c2 :: c3 :: c4 :: c5 :: c6 :: 'U' :: 'S' :: 'D' :: '1' :: ',' :: '0' :: []) = true
      by simp [takesCls, h1, h2])]
  simp only [List.drop_succ_cons, List.drop_zero, List.take_succ_cons, List.take_zero]
  simp only [results_seq_assoc]
  rw [det_seq_grp_repN _ (show takesCls isDigitB 2
      (c3 :: c4 :: c5 :: c6 :: 'U' :: 'S' :: 'D' :: '1' :: ',' :: '0' :: []) = true
      by simp [takesCls, h3, h4])]
  simp only [List.drop_succ_cons, List.drop_zero, List.take_succ_cons, List.take_zero]
  simp only [results_seq_assoc]
  rw [det_seq_grp_repN _ (show takesCls isDigitB 2
      (c5 :: c6 :: 'U' :: 'S' :: 'D' :: '1' :: ',' :: '0' :: []) = true
      by simp [takesCls, h5, h6])]
  simp only [List.drop_succ_cons, List.drop_zero, List.take_succ_cons, List.take_zero]
  simp only [results_seq_assoc]
  rw [det_seq_grp_repN _ (show takesCls isUpperB 3
      ('U' :: 'S' :: 'D' :: '1' :: ',' :: '0' :: []) = true by decide)]
  simp only [List.drop_succ_cons, List.drop_zero, List.take_succ_cons, List.take_zero]
  simp only [results_seq_assoc]
  rw [show results 18 ((Regex.grp ("interbank_settled_amount") (plusG (Regex.cls digitComma))).seq
      (wsStar.seq textAfter32A)) ('1' :: ',' :: '0' :: []) =
      [([], [(("interbank_settled_amount"), ['1', ',', '0'])])] from rfl]
  simp

/-! ## Claims -/

set_option maxRecDepth 8000

/-- C1, counterexample: rendering the parsed message does not reproduce the
original input when the input carries surrounding whitespace — `__init__`
stores `message.strip()`, so the trailing blank of `"x "` is lost. -/
theorem C1_counterexample :
    MT10x.str (MT10x.parse (("x ").data)) ≠ ("x ").data := by
  decide

/-- C1, amended: rendering a parsed message yields the stored `raw`, which is
the original input stripped of surrounding whitespace; parsing never mutates
`raw` beyond that initial strip, whether the parse is valid or not. -/
theorem C1_theorem (s : Str) :
    MT10x.str (MT10x.parse s) = pyStrip s ∧ (MT10x.parse s).raw = pyStrip s := by
  unfold MT10x.parse MT10x.str
  by_cases h : pyStrip s = []
  · simp [h]
  · cases hm : pyMatch messageRegex (pyStrip s) <;> simp [h, hm]

/-- C2, counterexample: the body `":26T:abc "` is reported valid and its
transaction type code is populated with `"abc "`, the raw run of `[^:]`
characters including the trailing blank — not the whitespace-trimmed
substring `"abc"` the claim requires. -/
theorem C2_counterexample :
    (Text.parse ((":26T:abc ").data)).boolean = true ∧
    (Text.parse ((":26T:abc ").data)).transaction_type_code = some (("abc ").data) ∧
    pyStrip (("abc ").data) ≠ ("abc ").data := by
  refine ⟨by rfl, by rfl, by decide⟩

/-- C2, amended: on a body reported valid, every populated field value is an
exact contiguous substring of the raw body taken verbatim (no case
normalization, and no guaranteed whitespace trimming: colon-delimited tags
keep boundary blanks); moreover a populated field — and the derived date —
forces its introducing tag text to occur contiguously in the body, so a field
whose tag text is absent from the body is always unset. The converse fails:
the tag text may occur (inside another tag's free text) with the field still
unset. -/
theorem C2_theorem (s : Str) (hb : (Text.parse s).boolean = true) :
    (∀ f ∈ (Text.parse s).strFields, ∀ v, f = some v → isSeg v s = true) ∧
    ((Text.parse s).senders_reference ≠ none → isSeg ((":20:").data) s = true) ∧
    ((Text.parse s).bank_operation_code ≠ none → isSeg ((":23B:").data) s = true) ∧
    ((Text.parse s).instruction_code ≠ none → isSeg ((":23E:").data) s = true) ∧
    ((Text.parse s).transaction_type_code ≠ none → isSeg ((":26T:").data) s = true) ∧
    ((Text.parse s).interbank_settled_currency ≠ none → isSeg ((":32A:").data) s = true) ∧
    ((Text.parse s).interbank_settled_amount ≠ none → isSeg ((":32A:").data) s = true) ∧
    ((Text.parse s).original_ordered_currency ≠ none → isSeg ((":33B:").data) s = true) ∧
    ((Text.parse s).original_ordered_amount ≠ none → isSeg ((":33B:").data) s = true) ∧
    ((Text.parse s).exchange_rate ≠ none → isSeg ((":36:").data) s = true) ∧
    ((Text.parse s).ordering_customer ≠ none → isSeg ((":50").data) s = true) ∧
    ((Text.parse s).sending_institution ≠ none → isSeg ((":51A:").data) s = true) ∧
    ((Text.parse s).ordering_institution ≠ none → isSeg ((":52").data) s = true) ∧
    ((Text.parse s).sender_correspondent ≠ none → isSeg ((":53").data) s = true) ∧
    ((Text.parse s).receiver_correspondent ≠ none → isSeg ((":54").data) s = true) ∧
    ((Text.parse s).intermediary ≠ none → isSeg ((":56").data) s = true) ∧
    ((Text.parse s).account_with_institution ≠ none → isSeg ((":57").data) s = true) ∧
    ((Text.parse s).beneficiary ≠ none → isSeg ((":59").data) s = true) ∧
    ((Text.parse s).remittance_information ≠ none → isSeg ((":70:").data) s = true) ∧
    ((Text.parse s).details_of_charges ≠ none → isSeg ((":71A:").data) s = true) ∧
    ((Text.parse s).sender_charges ≠ none → isSeg ((":71F:").data) s = true) ∧
    ((Text.parse s).receiver_charges ≠ none → isSeg ((":71G:").data) s = true) ∧
    ((Text.parse s).sender_to_receiver_information ≠ none → isSeg ((":72:").data) s = true) ∧
    ((Text.parse s).regulatory_reporting ≠ none → isSeg ((":77B:").data) s = true) ∧
    ((Text.parse s).date ≠ none → isSeg ((":32A:").data) s = true) := by
  by_cases hs : s = []
  · rw [Text.parse] at hb
    simp [hs] at hb
  · cases hm : pyMatch textRegex s with
    | none =>
      rw [Text.parse] at hb
      simp [hs, hm] at hb
    | some caps =>
      have horigin : ∀ nm v, (nm, v) ∈ caps → TagOrigin nm s := pyMatch_cap_tag hm
      have hfield : ∀ (nm : String) (pre : Str), tagPre nm = some pre →
          (∃ v, capLookup nm caps = some v) → isSeg pre s = true := by
        intro nm pre hpre ⟨v, hv⟩
        exact horigin nm v (capLookup_mem hv) pre hpre
      refine ⟨?_, ?_, ?_, ?_, ?_, ?_, ?_, ?_, ?_, ?_, ?_, ?_, ?_, ?_, ?_, ?_, ?_,
        ?_, ?_, ?_, ?_, ?_, ?_, ?_, ?_⟩
      · intro f hf v hv
        rw [Text.parse] at hf
        simp only [hs, if_neg, hm, Text.strFields, List.mem_cons, if_false,
          List.not_mem_nil, or_false] at hf
        subst hv
        rcases hf with h|h|h|h|h|h|h|h|h|h|h|h|h|h|h|h|h|h|h|h|h|h|h <;>
          exact capLookup_seg hm h.symm
      all_goals try
        (intro hne
         rw [Text.parse] at hne
         simp only [hs, if_neg, hm, if_false] at hne
         exact hfield _ _ (by decide) (Option.ne_none_iff_exists'.mp hne))
      · intro hne
        rw [Text.parse] at hne
        simp only [hs, if_neg, hm, if_false] at hne
        have hy : ∃ v, capLookup ("date_year") caps = some v := by
          cases hy0 : capLookup ("date_year") caps with
          | none =>
            rw [deriveDate, hy0] at hne
            simp at hne
          | some v => exact ⟨v, rfl⟩
        exact hfield _ _ (by decide) hy

/-- C2, witness for the amended theorem at the valid body `":20:REF"`: the
substring property holds there, and the populated sender's reference attests
its `:20:` tag text in the body. -/
theorem C2_witness :
    (Text.parse ((":20:REF").data)).boolean = true ∧
    (∀ f ∈ (Text.parse ((":20:REF").data)).strFields, ∀ v, f = some v →
      isSeg v ((":20:REF").data) = true) ∧
    ((Text.parse ((":20:REF").data)).senders_reference ≠ none →
      isSeg ((":20:").data) ((":20:REF").data) = true) :=
  ⟨by rfl, (C2_theorem _ (by rfl)).1, (C2_theorem _ (by rfl)).2.1⟩

/-- C3: the message whose block 4 payload is
`":20:REF1 :23B:CRED :32A:210101USD100,00"` (with the `-}` sentinel) parses
into a valid body with sender's reference `REF1`, bank operation code `CRED`,
settlement currency `USD`, settlement amount `100,00`, and date 2021-01-01. -/
theorem C3_theorem :
    (MT10x.parse (("\x7b4::20:REF1 :23B:CRED :32A:210101USD100,00 -\x7d").data)).boolean
      = true ∧
    ((MT10x.parse (("\x7b4::20:REF1 :23B:CRED :32A:210101USD100,00 -\x7d").data)).text.map
      (fun t => (t.boolean, t.senders_reference, t.bank_operation_code,
        t.interbank_settled_currency, t.interbank_settled_amount, t.date))) =
    some (true, some (("REF1").data), some (("CRED").data), some (("USD").data),
      some (("100,00").data), some ⟨2021, 1, 1⟩) := by
  constructor <;> rfl

/-- C4, counterexample: the body `":20:REF :99X:z"` fails the overall grammar
(tag `99X` is not in the catalog); the code then populates nothing at all —
the `:20:` reference matched before the failure point is *not* retained, so
the parse is all-or-nothing rather than best-effort prefix. -/
theorem C4_counterexample :
    (Text.parse ((":20:REF :99X:z").data)).boolean = false ∧
    (Text.parse ((":20:REF :99X:z").data)).senders_reference = none := by
  constructor <;> rfl

/-- C4, amended: when the body does not match the permitted tag sequence, the
body is reported invalid and *every* field (and the derived date) is left
unset: a failed overall match populates nothing. -/
theorem C4_theorem (s : Str) (h : pyMatch textRegex s = none) :
    (Text.parse s).boolean = false ∧
    (∀ f ∈ (Text.parse s).strFields, f = none) ∧ (Text.parse s).date = none := by
  by_cases hs : s = [] <;>
    simp [Text.parse, Text.strFields, hs, h]

/-- C4, witness for the amended theorem at the non-matching body
`":20:REF :99X:z"`. -/
theorem C4_witness :
    pyMatch textRegex ((":20:REF :99X:z").data) = none ∧
    ((Text.parse ((":20:REF :99X:z").data)).boolean = false ∧
     (∀ f ∈ (Text.parse ((":20:REF :99X:z").data)).strFields, f = none) ∧
     (Text.parse ((":20:REF :99X:z").data)).date = none) :=
  ⟨by rfl, C4_theorem _ (by rfl)⟩

/-- C5, counterexample: the transaction reference
`zzzzzzzz-zzzz-4zzz-8zzz-zzzzzzzzzzzz` contains `z`, which is not a hex
digit, yet the user header is reported valid and the reference is populated:
the pattern's classes are `[a-zA-Z0-9]`, not hex. -/
theorem C5_counterexample :
    (UserHeader.parse (("\x7b121:zzzzzzzz-zzzz-4zzz-8zzz-zzzzzzzzzzzz\x7d").data)).boolean
      = true ∧
    (UserHeader.parse (("\x7b121:zzzzzzzz-zzzz-4zzz-8zzz-zzzzzzzzzzzz\x7d").data)).unique_end_to_end_transaction_reference
      = some (("zzzzzzzz-zzzz-4zzz-8zzz-zzzzzzzzzzzz").data) ∧
    ¬ (isDigitB 'z' = true ∨ ('a' ≤ 'z' ∧ 'z' ≤ 'f') ∨ ('A' ≤ 'z' ∧ 'z' ≤ 'F')) := by
  refine ⟨by rfl, by rfl, by decide⟩

/-- C5, amended: a user header consisting of a single `{121:}` group is
accepted exactly when the transaction reference matches five dash-separated
*alphanumeric* (`[a-zA-Z0-9]`, not hex) groups of lengths 8-4-4-4-12 with the
version character fixed to `'4'` and the variant character in `{8,9,a,b}`
(lowercase only); any deviation from that shape makes the user header report
invalid. -/
theorem C5_theorem (s : Str) :
    (UserHeader.parse (("\x7b121:").data ++ s ++ ("\x7d").data)).boolean = true ↔
      uetrShapeP s := by
  rw [uh_wrap_key]
  constructor
  · rintro ⟨hA, hB, hC⟩
    exact key_shape hA hB hC
  · intro hs
    exact shape_key hs

/-- C5, witness: the well-shaped reference from the repository's own test
data is accepted. -/
theorem C5_witness :
    (UserHeader.parse (("\x7b121:").data ++
      ("d2d62e74-4f7d-45dc-a230-85fa259e1694").data ++ ("\x7d").data)).boolean = true :=
  (C5_theorem _).mpr
    ⟨("d2d62e74").data, ("4f7d").data, ("45dc").data, ("a230").data,
      ("85fa259e1694").data, by decide, by decide, by decide, by decide, by decide,
      by decide, by decide, by decide, by decide, by decide, by decide, by decide,
      ⟨'a', by decide, by decide⟩⟩

/-- C6, counterexample: for the one-character basic header `"F"`, the fields
beyond the available length are populated with the *empty string* (Python
slicing past the end), not left unset as the claim states. -/
theorem C6_counterexample :
    (BasicHeader.parse (("F").data)).boolean = true ∧
    (BasicHeader.parse (("F").data)).session_number = some [] ∧
    (BasicHeader.parse (("F").data)).session_number ≠ none := by
  refine ⟨by rfl, by rfl, by decide⟩

/-- C6, amended: header extraction is pure clipped slicing and never faults:
on any nonempty input every field is the corresponding Python slice, so
fields lying wholly beyond the available length come out as the empty string
(not `None`), and partially covered fields are truncated. -/
theorem C6_theorem (s : Str) (hs : s ≠ []) :
    ((BasicHeader.parse s).boolean = true ∧
     (BasicHeader.parse s).application_id = some (pySlice s 0 1) ∧
     (BasicHeader.parse s).service_id = some (pySlice s 1 3) ∧
     (BasicHeader.parse s).logical_terminal_address = some (pySlice s 3 15) ∧
     (BasicHeader.parse s).session_number = some (pySlice s 15 19) ∧
     (BasicHeader.parse s).sequence_number = some (pySlice s 19 25)) ∧
    ((ApplicationHeader.parse (some s)).boolean = true ∧
     (ApplicationHeader.parse (some s)).input_output = some (pySlice s 0 1) ∧
     (ApplicationHeader.parse (some s)).swift_message_type = some (pySlice s 1 4) ∧
     (ApplicationHeader.parse (some s)).destination_address = some (pySlice s 4 16) ∧
     (ApplicationHeader.parse (some s)).priority = some (pySlice s 16 17) ∧
     (ApplicationHeader.parse (some s)).delivery_monitoring = some (pySlice s 17 18) ∧
     (ApplicationHeader.parse (some s)).obsolescence_period = some (pySlice s 18 21)) ∧
    (s.length ≤ 15 →
      (BasicHeader.parse s).session_number = some [] ∧
      (BasicHeader.parse s).sequence_number = some []) ∧
    (s.length ≤ 16 →
      (ApplicationHeader.parse (some s)).priority = some [] ∧
      (ApplicationHeader.parse (some s)).delivery_monitoring = some [] ∧
      (ApplicationHeader.parse (some s)).obsolescence_period = some []) := by
  refine ⟨?_, ?_, fun h => ?_, fun h => ?_⟩
  · simp [BasicHeader.parse, hs]
  · simp [ApplicationHeader.parse, hs]
  · simp [BasicHeader.parse, hs, pySlice_eq_nil h,
      pySlice_eq_nil (show s.length ≤ 19 by omega)]
  · simp [ApplicationHeader.parse, hs, pySlice_eq_nil h,
      pySlice_eq_nil (show s.length ≤ 17 by omega),
      pySlice_eq_nil (show s.length ≤ 18 by omega)]

/-- C6, witness at the one-character header `"F"`. -/
theorem C6_witness :
    ("F").data ≠ [] ∧
    (BasicHeader.parse (("F").data)).session_number = some (pySlice (("F").data) 15 19) ∧
    (("F").data.length ≤ 15 →
      (BasicHeader.parse (("F").data)).session_number = some [] ∧
      (BasicHeader.parse (("F").data)).sequence_number = some []) :=
  ⟨by decide, (C6_theorem _ (by decide)).1.2.2.2.2.1, (C6_theorem _ (by decide)).2.2.1⟩

/-- C7: when a nonempty user-header payload fails to match `UserHeader.REGEX`
(the grammar of four optional ordered groups), the header is reported invalid
and all four fields stay unset — no partial extraction. -/
theorem C7_theorem (s : Str) (hs : s ≠ []) (h : pyMatch userHeaderRegex s = none) :
    (UserHeader.parse s).boolean = false ∧
    (UserHeader.parse s).bank_priority_code = none ∧
    (UserHeader.parse s).message_user_reference = none ∧
    (UserHeader.parse s).service_type_identifier = none ∧
    (UserHeader.parse s).unique_end_to_end_transaction_reference = none := by
  simp [UserHeader.parse, hs, h]

/-- C7, witness at the payload `"{113:ab}"` (lowercase letters violate the
`[A-Z]{4}` class, so the grammar fails). -/
theorem C7_witness :
    ("\x7b113:ab\x7d").data ≠ [] ∧
    pyMatch userHeaderRegex (("\x7b113:ab\x7d").data) = none ∧
    ((UserHeader.parse (("\x7b113:ab\x7d").data)).boolean = false ∧
     (UserHeader.parse (("\x7b113:ab\x7d").data)).bank_priority_code = none ∧
     (UserHeader.parse (("\x7b113:ab\x7d").data)).message_user_reference = none ∧
     (UserHeader.parse (("\x7b113:ab\x7d").data)).service_type_identifier = none ∧
     (UserHeader.parse (("\x7b113:ab\x7d").data)).unique_end_to_end_transaction_reference = none) :=
  ⟨by decide, by rfl, C7_theorem _ (by decide) (by rfl)⟩

/-- C9, counterexample: at the BasicHeader level an all-whitespace raw string
`" "` is *not* the claimed invalid-and-unset case: slicing applies to any
nonempty string, so the header reports valid and its first field is `" "`. -/
theorem C9_counterexample :
    (∀ c ∈ ((" ").data), isPySpace c = true) ∧
    (BasicHeader.parse ((" ").data)).boolean = true ∧
    (BasicHeader.parse ((" ").data)).application_id = some ((" ").data) := by
  refine ⟨by decide, by rfl, by rfl⟩

/-- C8: the settlement digits `"180117"` derive the calendar date 2018-01-17
(year offset from 2000); in general, for any six digit characters in the
`:32A:` date positions, the body parses valid with the currency and amount
extracted, and the derived date is exactly `datetime.date`'s validation
result — `none` when the triple is not a real calendar date, with no fault
and the other fields unaffected. -/
theorem C8_theorem :
    (Text.parse ((":32A:180117CAD5432,1").data)).date = some ⟨2018, 1, 17⟩ ∧
    (∀ c1 c2 c3 c4 c5 c6 : Char,
      isDigitB c1 = true → isDigitB c2 = true → isDigitB c3 = true →
      isDigitB c4 = true → isDigitB c5 = true → isDigitB c6 = true →
      (Text.parse ((":32A:").data ++ [c1, c2, c3, c4, c5, c6] ++ ("USD1,0").data)).boolean
        = true ∧
      (Text.parse ((":32A:").data ++ [c1, c2, c3, c4, c5, c6] ++ ("USD1,0").data)).interbank_settled_currency
        = some (("USD").data) ∧
      (Text.parse ((":32A:").data ++ [c1, c2, c3, c4, c5, c6] ++ ("USD1,0").data)).interbank_settled_amount
        = some (("1,0").data) ∧
      (Text.parse ((":32A:").data ++ [c1, c2, c3, c4, c5, c6] ++ ("USD1,0").data)).senders_reference
        = none ∧
      (Text.parse ((":32A:").data ++ [c1, c2, c3, c4, c5, c6] ++ ("USD1,0").data)).date
        = mkDate (2000 + (digitVal c1 * 10 + digitVal c2)) (digitVal c3 * 10 + digitVal c4)
            (digitVal c5 * 10 + digitVal c6)) := by
  constructor
  · rfl
  intro c1 c2 c3 c4 c5 c6 h1 h2 h3 h4 h5 h6
  have hres := results_C8_aux c1 c2 c3 c4 c5 c6 h1 h2 h3 h4 h5 h6
  have hL : (":32A:").data ++ [c1, c2, c3, c4, c5, c6] ++ ("USD1,0").data =
      ':' :: '3' :: '2' :: 'A' :: ':' :: c1 :: c2 :: c3 :: c4 :: c5 :: c6 ::
        'U' :: 'S' :: 'D' :: '1' :: ',' :: '0' :: [] := rfl
  rw [hL]
  have hm : pyMatch textRegex
      (':' :: '3' :: '2' :: 'A' :: ':' :: c1 :: c2 :: c3 :: c4 :: c5 :: c6 ::
        'U' :: 'S' :: 'D' :: '1' :: ',' :: '0' :: []) =
      some [(("interbank_settled_amount"), ['1', ',', '0']),
            (("interbank_settled_currency"), ['U', 'S', 'D']),
            (("date_day"), [c5, c6]), (("date_month"), [c3, c4]),
            (("date_year"), [c1, c2])] := by
    unfold pyMatch
    have hlen : (':' :: '3' :: '2' :: 'A' :: ':' :: c1 :: c2 :: c3 :: c4 :: c5 :: c6 ::
        'U' :: 'S' :: 'D' :: '1' :: ',' :: '0' :: ([] : Str)).length + 1 = 18 := by simp
    rw [hlen, hres]
    rfl
  refine ⟨?_, ?_, ?_, ?_, ?_⟩ <;>
    simp [Text.parse, hm, capLookup, deriveDate, decVal, List.find?, digitVal]

/-- C8, witness: month digits `"13"` do not form a real month, so the derived
date is unset while the currency stays populated and the parse stays valid. -/
theorem C8_witness :
    (isDigitB '1' = true ∧ isDigitB '8' = true ∧ isDigitB '3' = true ∧
     isDigitB '0' = true) ∧
    (Text.parse ((":32A:").data ++ ['1', '8', '1', '3', '0', '1'] ++ ("USD1,0").data)).boolean
      = true ∧
    (Text.parse ((":32A:").data ++ ['1', '8', '1', '3', '0', '1'] ++ ("USD1,0").data)).interbank_settled_currency
      = some (("USD").data) ∧
    (Text.parse ((":32A:").data ++ ['1', '8', '1', '3', '0', '1'] ++ ("USD1,0").data)).date
      = none := by
  have h := C8_theorem.2 '1' '8' '1' '3' '0' '1' (by decide) (by decide) (by decide)
    (by decide) (by decide) (by decide)
  exact ⟨⟨by decide, by decide, by decide, by decide⟩, h.1, h.2.1,
    h.2.2.2.2.trans (by decide)⟩

/-- C9, amended: parsing an empty raw string at any level yields an invalid
entity with every field unset, and no error is ever raised (all parsers are
total).  All-whitespace input behaves that way only at Message level (the
input is stripped first) and — apart from the single raw string `"\n"`,
accepted by the Python `$`-before-trailing-newline rule with all fields still
unset — at UserHeader and body level; BasicHeader and ApplicationHeader
instead report *valid* on any nonempty all-whitespace raw, with fields set by
slicing. -/
theorem C9_theorem (s : Str) (hsp : ∀ c ∈ s, isPySpace c = true) :
    ((MT10x.parse s).boolean = false ∧ (MT10x.parse s).basic_header = none ∧
     (MT10x.parse s).application_header = none ∧ (MT10x.parse s).user_header = none ∧
     (MT10x.parse s).text = none ∧ (MT10x.parse s).trailer = none) ∧
    ((BasicHeader.parse s).boolean = true ↔ s ≠ []) ∧
    ((ApplicationHeader.parse (some s)).boolean = true ↔ s ≠ []) ∧
    (s = [] →
      (BasicHeader.parse s).application_id = none ∧
      (BasicHeader.parse s).service_id = none ∧
      (BasicHeader.parse s).logical_terminal_address = none ∧
      (BasicHeader.parse s).session_number = none ∧
      (BasicHeader.parse s).sequence_number = none ∧
      (ApplicationHeader.parse (some s)).input_output = none ∧
      (ApplicationHeader.parse (some s)).swift_message_type = none ∧
      (ApplicationHeader.parse (some s)).destination_address = none ∧
      (ApplicationHeader.parse (some s)).priority = none ∧
      (ApplicationHeader.parse (some s)).delivery_monitoring = none ∧
      (ApplicationHeader.parse (some s)).obsolescence_period = none) ∧
    (s ≠ [] →
      (BasicHeader.parse s).application_id = some (pySlice s 0 1) ∧
      (BasicHeader.parse s).service_id = some (pySlice s 1 3) ∧
      (BasicHeader.parse s).logical_terminal_address = some (pySlice s 3 15) ∧
      (BasicHeader.parse s).session_number = some (pySlice s 15 19) ∧
      (BasicHeader.parse s).sequence_number = some (pySlice s 19 25) ∧
      (ApplicationHeader.parse (some s)).input_output = some (pySlice s 0 1) ∧
      (ApplicationHeader.parse (some s)).swift_message_type = some (pySlice s 1 4) ∧
      (ApplicationHeader.parse (some s)).destination_address = some (pySlice s 4 16) ∧
      (ApplicationHeader.parse (some s)).priority = some (pySlice s 16 17) ∧
      (ApplicationHeader.parse (some s)).delivery_monitoring = some (pySlice s 17 18) ∧
      (ApplicationHeader.parse (some s)).obsolescence_period = some (pySlice s 18 21)) ∧
    ((UserHeader.parse s).boolean = true ↔ s = ['\n']) ∧
    ((UserHeader.parse s).bank_priority_code = none ∧
     (UserHeader.parse s).message_user_reference = none ∧
     (UserHeader.parse s).service_type_identifier = none ∧
     (UserHeader.parse s).unique_end_to_end_transaction_reference = none) ∧
    ((Text.parse s).boolean = true ↔ s = ['\n']) ∧
    (∀ f ∈ (Text.parse s).strFields, f = none) ∧ (Text.parse s).date = none := by
  cases s with
  | nil =>
    exact ⟨by decide, by decide, by decide, by decide, by decide, by decide, by decide,
      by decide, by decide, by decide⟩
  | cons c cs =>
    have hc : isPySpace c = true := hsp c (by simp)
    have hstrip : pyStrip (c :: cs) = [] := pyStrip_eq_nil_of_all hsp
    refine ⟨by simp [MT10x.parse, hstrip], ?_, ?_, by simp, ?_, ?_⟩
    · simp [BasicHeader.parse]
    · simp [ApplicationHeader.parse]
    · intro _
      simp [BasicHeader.parse, ApplicationHeader.parse]
    by_cases hnl : c :: cs = ['\n']
    · obtain ⟨rfl, rfl⟩ : c = '\n' ∧ cs = [] := by simpa using hnl
      decide
    · have hmu : pyMatch userHeaderRegex (c :: cs) = none := by
        rw [pyMatch_userHeaderRegex_space hc]
        simp [hnl]
      have hmt : pyMatch textRegex (c :: cs) = none := by
        rw [pyMatch_textRegex_space hc]
        simp [hnl]
      simp [UserHeader.parse, Text.parse, Text.strFields, hnl, hmu, hmt]

/-- C9, witness at the all-whitespace strings `" "` and at the amended
theorem's quantifier instantiated there. -/
theorem C9_witness :
    (∀ c ∈ ((" ").data), isPySpace c = true) ∧
    (((MT10x.parse ((" ").data)).boolean = false ∧
      (MT10x.parse ((" ").data)).basic_header = none ∧
      (MT10x.parse ((" ").data)).application_header = none ∧
      (MT10x.parse ((" ").data)).user_header = none ∧
      (MT10x.parse ((" ").data)).text = none ∧
      (MT10x.parse ((" ").data)).trailer = none) ∧
     ((BasicHeader.parse ((" ").data)).boolean = true ↔ (" ").data ≠ []) ∧
     ((ApplicationHeader.parse (some ((" ").data))).boolean = true ↔ (" ").data ≠ []) ∧
     ((" ").data = [] →
       (BasicHeader.parse ((" ").data)).application_id = none ∧
       (BasicHeader.parse ((" ").data)).service_id = none ∧
       (BasicHeader.parse ((" ").data)).logical_terminal_address = none ∧
       (BasicHeader.parse ((" ").data)).session_number = none ∧
       (BasicHeader.parse ((" ").data)).sequence_number = none ∧
       (ApplicationHeader.parse (some ((" ").data))).input_output = none ∧
       (ApplicationHeader.parse (some ((" ").data))).swift_message_type = none ∧
       (ApplicationHeader.parse (some ((" ").data))).destination_address = none ∧
       (ApplicationHeader.parse (some ((" ").data))).priority = none ∧
       (ApplicationHeader.parse (some ((" ").data))).delivery_monitoring = none ∧
       (ApplicationHeader.parse (some ((" ").data))).obsolescence_period = none) ∧
     ((" ").data ≠ [] →
       (BasicHeader.parse ((" ").data)).application_id = some (pySlice ((" ").data) 0 1) ∧
       (BasicHeader.parse ((" ").data)).service_id = some (pySlice ((" ").data) 1 3) ∧
       (BasicHeader.parse ((" ").data)).logical_terminal_address = some (pySlice ((" ").data) 3 15) ∧
       (BasicHeader.parse ((" ").data)).session_number = some (pySlice ((" ").data) 15 19) ∧
       (BasicHeader.parse ((" ").data)).sequence_number = some (pySlice ((" ").data) 19 25) ∧
       (ApplicationHeader.parse (some ((" ").data))).input_output = some (pySlice ((" ").data) 0 1) ∧
       (ApplicationHeader.parse (some ((" ").data))).swift_message_type = some (pySlice ((" ").data) 1 4) ∧
       (ApplicationHeader.parse (some ((" ").data))).destination_address = some (pySlice ((" ").data) 4 16) ∧
       (ApplicationHeader.parse (some ((" ").data))).priority = some (pySlice ((" ").data) 16 17) ∧
       (ApplicationHeader.parse (some ((" ").data))).delivery_monitoring = some (pySlice ((" ").data) 17 18) ∧
       (ApplicationHeader.parse (some ((" ").data))).obsolescence_period = some (pySlice ((" ").data) 18 21)) ∧
     ((UserHeader.parse ((" ").data)).boolean = true ↔ (" ").data = ['\n']) ∧
     ((UserHeader.parse ((" ").data)).bank_priority_code = none ∧
      (UserHeader.parse ((" ").data)).message_user_reference = none ∧
      (UserHeader.parse ((" ").data)).service_type_identifier = none ∧
      (UserHeader.parse ((" ").data)).unique_end_to_end_transaction_reference = none) ∧
     ((Text.parse ((" ").data)).boolean = true ↔ (" ").data = ['\n']) ∧
     (∀ f ∈ (Text.parse ((" ").data)).strFields, f = none) ∧
     (Text.parse ((" ").data)).date = none) :=
  ⟨by decide, C9_theorem _ (by decide)⟩

/-- C10: on the raw input `"{3:{108:AB CD}}"` the top-level message reports
valid — the message-level `108` class `[A-Z 0-9]` permits the space — while
the extracted user header `"{108:AB CD}"` fails `UserHeader.REGEX`, whose
`108` class `[A-Z0-9]` does not, so the user header reports invalid with all
four fields unset. -/
theorem C10_theorem :
    (MT10x.parse (("\x7b3:\x7b108:AB CD\x7d\x7d").data)).boolean = true ∧
    ((MT10x.parse (("\x7b3:\x7b108:AB CD\x7d\x7d").data)).user_header.map
      (fun u => (u.boolean, u.raw, u.bank_priority_code, u.message_user_reference,
        u.service_type_identifier, u.unique_end_to_end_transaction_reference))) =
    some (false, ("\x7b108:AB CD\x7d").data, none, none, none, none) := by
  constructor <;> rfl

end MT10xModel
